import Mathlib

/-!
Verification of the ResumeForge document-composition engine.

The development embeds, as executable Lean definitions, the HTML
composition code of the repository:

* pdf-generator.py  — namespace PdfGen: the three string-building
  template functions and the template-style dispatch of generate_cv_pdf
  (the xhtml2pdf rasterization and file I/O around them are the external
  DocumentRenderer collaborator and are out of scope per the spec).
* new-pdf-generator.py — namespace NewPdfGen: same structure, with the
  extracurricular section, and modern/minimal delegating to professional.
* weasy_pdf.py — namespace Weasy: the format_date normalizer over a
  small universe of Python runtime values, and the template-rendering
  context built by generate_pdf, with the clock reading made an explicit
  parameter.

Records are modelled with one field per JSON key the code reads; a key
absent from the input corresponds to the default value the code supplies
via dict.get. String-occurrence infrastructure (a decidable substring
search and a chunkwise no-occurrence checker with a soundness proof)
supports claims about what the generated markup does and does not
contain.
-/

set_option maxRecDepth 8000

/-! ## String occurrence infrastructure -/

/-- Decidable check that the list `s` starts with the pattern `p`. -/
def listStartsWith : List Char → List Char → Bool
  | [], _ => true
  | _ :: _, [] => false
  | p :: ps, c :: cs => p == c && listStartsWith ps cs

/-- Decidable check that the pattern `p` occurs somewhere in `s`. -/
def listContainsSub (p : List Char) : List Char → Bool
  | [] => listStartsWith p []
  | c :: cs => listStartsWith p (c :: cs) || listContainsSub p cs

/-- Decidable check that the pattern string `p` occurs in `s`. -/
def strContains (s p : String) : Bool := listContainsSub p.data s.data

/-- The pattern `p` occurs in `s` (as contiguous sublist). -/
def Occurs (p s : List Char) : Prop := ∃ x y, s = x ++ p ++ y

/-- The pattern string `p` occurs in the string `s` as a substring. -/
def StrOccurs (p s : String) : Prop := ∃ x y, s = x ++ p ++ y

/-- Concatenation of a list of strings, in order. -/
def strJoin : List String → String
  | [] => ""
  | s :: rest => s ++ strJoin rest

/-- Concatenation of a list of character lists, in order. -/
def joinL : List (List Char) → List Char
  | [] => []
  | a :: rest => a ++ joinL rest

/-- The last `k` characters of `a` (all of `a` when it is shorter). -/
def suffixTail (k : Nat) (a : List Char) : List Char := a.drop (a.length - k)

/-- The first `k` characters of the concatenation of the chunks,
computed chunk by chunk so no long list is ever traversed at once. -/
def takeJoin (k : Nat) : List (List Char) → List Char
  | [] => []
  | a :: rest => a.take k ++ takeJoin (k - a.length) rest

/-- Chunkwise checker: the pattern `p` occurs neither inside any chunk
nor across any chunk boundary of the concatenation. -/
def noOccJoin (p : List Char) : List (List Char) → Bool
  | [] => true
  | a :: rest =>
      !(listContainsSub p a)
      && !(listContainsSub p (suffixTail (p.length - 1) a ++ takeJoin (p.length - 1) rest))
      && noOccJoin p rest

/-- Modelled from the spec: the escaping the assembler is required to
apply to plain-text field values (neutralising the characters that could
alter markup structure). Used only to compare the required behaviour
with what the code actually does. -/
def htmlEscapeSpec (s : String) : String :=
  ⟨s.data.flatMap fun c =>
    if c = '&' then "&amp;".data
    else if c = '<' then "&lt;".data
    else if c = '>' then "&gt;".data
    else [c]⟩

/-! ## CV data model

One structure per JSON object the generators read, one field per key,
named as in the source. A key absent from the input behaves exactly like
the default value that dict.get supplies, so defaults are the empty
string, empty list, or false. pdf-generator.py reads the keys summary,
experiences and educations, while new-pdf-generator.py reads
professional, experience, education and extracurricular; CVData carries
all of them. -/

structure Personal where
  firstName : String := ""
  lastName : String := ""
  professionalTitle : String := ""
  email : String := ""
  phone : String := ""
  linkedin : String := ""
  deriving DecidableEq

structure SummaryData where
  summary : String := ""
  deriving DecidableEq

structure KeyCompetencies where
  technicalSkills : List String := []
  softSkills : List String := []
  deriving DecidableEq

structure Experience where
  companyName : String := ""
  jobTitle : String := ""
  startDate : String := ""
  endDate : String := ""
  isCurrent : Bool := false
  responsibilities : String := ""
  deriving DecidableEq

structure Education where
  schoolName : String := ""
  major : String := ""
  startDate : String := ""
  endDate : String := ""
  achievements : String := ""
  deriving DecidableEq

structure Certificate where
  name : String := ""
  institution : String := ""
  dateAcquired : String := ""
  expirationDate : String := ""
  achievements : String := ""
  deriving DecidableEq

structure LanguageEntry where
  name : String := ""
  proficiency : String := ""
  deriving DecidableEq

structure Extracurricular where
  organization : String := ""
  role : String := ""
  startDate : String := ""
  endDate : String := ""
  isCurrent : Bool := false
  description : String := ""
  deriving DecidableEq

structure Additional where
  skills : List String := []
  deriving DecidableEq

structure CVData where
  personal : Personal := {}
  summary : SummaryData := {}
  professional : SummaryData := {}
  keyCompetencies : KeyCompetencies := {}
  experiences : List Experience := []
  experience : List Experience := []
  educations : List Education := []
  education : List Education := []
  certificates : List Certificate := []
  languages : List LanguageEntry := []
  extracurricular : List Extracurricular := []
  additional : Additional := {}
  deriving DecidableEq

/-- Python str.capitalize: first character upper-cased, the rest
lower-cased (ASCII approximation of the unicode mapping). -/
def pyCapitalize (s : String) : String :=
  match s.data with
  | [] => ""
  | c :: cs => ⟨c.toUpper :: cs.map Char.toLower⟩

/-! ## weasy_pdf.py -/

namespace Weasy

/-- Universe of Python runtime values a JSON-derived date field can
hold: null, a string, an integer, or a boolean. -/
inductive PyVal where
  | none
  | str (s : String)
  | int (n : Int)
  | bool (b : Bool)
  deriving DecidableEq

/-- Python truthiness on PyVal, as used by if-not checks in format_date. -/
def pyTruthy : PyVal → Bool
  | .none => false
  | .str s => !(s == "")
  | .int n => !(n == 0)
  | .bool b => b

/-- Python str() conversion on PyVal. -/
def pyStr : PyVal → String
  | .none => "None"
  | .str s => s
  | .int n => toString n
  | .bool b => if b then "True" else "False"

/-- Characters removed by Python str.strip (ASCII whitespace). -/
def pyIsSpace (c : Char) : Bool :=
  c == ' ' || c == '\t' || c == '\n' || c == '\r' || c == '\x0b' || c == '\x0c'

/-- Python str.strip: whitespace removed from both ends. -/
def pyStrip (s : String) : String :=
  ⟨((s.data.dropWhile pyIsSpace).reverse.dropWhile pyIsSpace).reverse⟩

/-- Split a character list at every dash, like Python str.split on a
single-character separator. -/
def splitOnDash : List Char → List (List Char)
  | [] => [[]]
  | c :: cs =>
    match splitOnDash cs with
    | [] => [[c]]
    | g :: gs => if c == '-' then [] :: g :: gs else (c :: g) :: gs

/-- Numeric value of a non-empty all-digit character group, as matched
by one field of the strptime format; none otherwise. -/
def digitGroup? (l : List Char) : Option Nat :=
  if l ≠ [] ∧ l.all Char.isDigit then
    some (l.foldl (fun a c => 10 * a + (c.toNat - 48)) 0)
  else
    Option.none

/-- Gregorian leap-year rule used by the datetime module. -/
def isLeapYear (y : Nat) : Bool :=
  (y % 4 == 0 && !(y % 100 == 0)) || y % 400 == 0

/-- Number of days in a month, with the leap rule for February. -/
def daysInMonth (y m : Nat) : Nat :=
  if m = 2 then (if isLeapYear y then 29 else 28)
  else if m = 4 ∨ m = 6 ∨ m = 9 ∨ m = 11 then 30
  else 31

/-- Model of datetime.strptime with format Y-m-d: a full match of a
four-digit year (at least 1), a one- or two-digit month 1..12, and a
one- or two-digit day valid for that calendar month; none when the
string does not match. -/
def parseYMD (s : String) : Option (Nat × Nat × Nat) :=
  match splitOnDash s.data with
  | [ys, ms, ds] =>
    match digitGroup? ys, digitGroup? ms, digitGroup? ds with
    | some y, some m, some d =>
      if ys.length = 4 ∧ 1 ≤ y ∧
          (ms.length = 1 ∨ ms.length = 2) ∧ 1 ≤ m ∧ m ≤ 12 ∧
          (ds.length = 1 ∨ ds.length = 2) ∧ 1 ≤ d ∧ d ≤ daysInMonth y m then
        some (y, m, d)
      else
        Option.none
    | _, _, _ => Option.none
  | _ => Option.none

/-- Abbreviated month names produced by strftime with the b directive. -/
def monthAbbrev : Nat → String
  | 1 => "Jan" | 2 => "Feb" | 3 => "Mar" | 4 => "Apr"
  | 5 => "May" | 6 => "Jun" | 7 => "Jul" | 8 => "Aug"
  | 9 => "Sep" | 10 => "Oct" | 11 => "Nov" | 12 => "Dec"
  | _ => ""

/-- weasy_pdf.format_date: Present when is_current; empty for falsy or
whitespace-only input; strftime b-Y rendering when the stripped string
parses as an ISO date; otherwise the stripped best-effort string form.
Total by construction, mirroring the try/except blocks that make the
Python function return on every input. -/
def format_date (date_str : PyVal) (is_current : Bool) : String :=
  if is_current then "Present"
  else if pyTruthy date_str = false then ""
  else
    let s := pyStrip (pyStr date_str)
    if s = "" then ""
    else
      match parseYMD s with
      | some (y, m, _) => monthAbbrev m ++ " " ++ toString y
      | Option.none => s

/-- The template-rendering context built by generate_pdf: the CV record
and the formatted current date. The format_date function is also placed
in the context but is a fixed function, so it is omitted from the state;
the now field holds the strftime rendering of datetime.now, the one
clock reading of the pipeline, made an explicit parameter here. -/
structure WeasyContext where
  cv : CVData
  now : String
  deriving DecidableEq

/-- Context construction of weasy_pdf.generate_pdf (lines 88-93). -/
def weasy_context (data : CVData) (now : String) : WeasyContext :=
  { cv := data, now := now }

end Weasy

/-! ## pdf-generator.py -/

namespace PdfGen

/-- Style sheet and document head of the professional template, up to
and including the opening h1 tag of the name (lines 106-193), split
into pieces so every literal stays short. -/
def profCss1 : String := "\n    <html>\n    <head>\n        <meta charset=\"UTF-8\">\n        <style>\n            @page \x7b\n                size: A4;\n                margin: 1cm;\n            \x7d\n            body \x7b\n                font-family: Arial, sans-serif;\n                font-size: 11pt;\n                color: #333;\n                line-height: 1.4;\n            \x7d\n            .header \x7b\n                margin-bottom: 20px;\n            \x7d\n            .name \x7b\n                font-size: 24pt;\n"

def profCss2 : String := "                font-weight: bold;\n                color: #043e44;\n                margin: 0;\n            \x7d\n            .title \x7b\n                font-size: 14pt;\n                color: #03d27c;\n                margin: 5px 0 10px 0;\n            \x7d\n            .contact-info \x7b\n                margin-bottom: 15px;\n                font-size: 10pt;\n            \x7d\n            .section \x7b\n                margin-bottom: 20px;\n            \x7d\n            .section-title \x7b\n"

def profCss3 : String := "                font-size: 14pt;\n                font-weight: bold;\n                color: #043e44;\n                border-bottom: 2px solid #03d27c;\n                padding-bottom: 5px;\n                margin-bottom: 10px;\n            \x7d\n            .company-title \x7b\n                font-weight: bold;\n                margin-bottom: 0;\n            \x7d\n            .job-title \x7b\n                font-style: italic;\n                color: #03d27c;\n            \x7d\n"

def profCss4 : String := "            .date-range \x7b\n                font-size: 10pt;\n                color: #666;\n            \x7d\n            .responsibilities \x7b\n                margin-top: 5px;\n            \x7d\n            .school-name \x7b\n                font-weight: bold;\n            \x7d\n            .degree \x7b\n                font-style: italic;\n            \x7d\n            .skills-list \x7b\n                column-count: 2;\n                column-gap: 20px;\n            \x7d\n            .skills-item \x7b\n"

def profCss5 : String := "                margin-bottom: 5px;\n                break-inside: avoid;\n            \x7d\n            .language \x7b\n                margin-bottom: 5px;\n            \x7d\n            .language-name \x7b\n                font-weight: bold;\n            \x7d\n            .language-level \x7b\n                font-style: italic;\n                color: #666;\n            \x7d\n        </style>\n    </head>\n    <body>\n        <div class=\"header\">\n            <h1 class=\"name\">"

def profCss : String := profCss1 ++ profCss2 ++ profCss3 ++ profCss4 ++ profCss5

/-- Header region of the professional template (name, title, contact
line with the conditional LinkedIn fragment). -/
def headerBlock (p : Personal) : String :=
  profCss ++ p.firstName ++ " " ++ p.lastName
  ++ "</h1>\n            <div class=\"title\">"
  ++ p.professionalTitle
  ++ "</div>\n            <div class=\"contact-info\">\n                "
  ++ p.email ++ " | " ++ p.phone ++ "\n                "
  ++ (if p.linkedin = "" then "" else " | LinkedIn: " ++ p.linkedin)
  ++ "\n            </div>\n        </div>\n    "

/-- Closing tags appended at the end of every template (lines 324-327). -/
def docTail : String := "\n    </body>\n    </html>\n    "

/-- Summary section: emitted only when the summary text is truthy
(lines 202-209). -/
def summarySection (s : SummaryData) : String :=
  if s.summary = "" then ""
  else
    "\n        <div class=\"section\">\n            <div class=\"section-title\">Professional Summary</div>\n            <p>"
    ++ s.summary ++ "</p>\n        </div>\n        "

/-- One bulleted skill item (lines 222, 227, 320). -/
def skillsItem (skill : String) : String :=
  "<div class=\"skills-item\">• " ++ skill ++ "</div>"

/-- Key Competencies section: emitted when either sub-list is non-empty,
each sub-list emitted only when non-empty (lines 211-229). -/
def competenciesSection (k : KeyCompetencies) : String :=
  if k.technicalSkills = [] ∧ k.softSkills = [] then ""
  else
    "\n        <div class=\"section\">\n            <div class=\"section-title\">Key Competencies</div>\n            <div class=\"skills-list\">\n        "
    ++ (if k.technicalSkills = [] then ""
        else "<strong>Technical Skills:</strong><br/>" ++ strJoin (k.technicalSkills.map skillsItem))
    ++ (if k.softSkills = [] then ""
        else "<br/><strong>Soft Skills:</strong><br/>" ++ strJoin (k.softSkills.map skillsItem))
    ++ "</div></div>"

/-- The end of the displayed date range: the literal Present when the
entry is current, the raw endDate value otherwise (lines 239-240). -/
def experienceEndDate (e : Experience) : String :=
  if e.isCurrent then "Present" else e.endDate

/-- Text of the date-range paragraph of one experience entry: the raw
startDate, a dash, and experienceEndDate (line 246). -/
def experienceDateRange (e : Experience) : String :=
  e.startDate ++ " - " ++ experienceEndDate e

/-- One experience entry (lines 242-251). -/
def experienceEntry (e : Experience) : String :=
  "\n            <div style=\"margin-bottom: 15px;\">\n                <p class=\"company-title\">"
  ++ e.companyName
  ++ "</p>\n                <p class=\"job-title\">"
  ++ e.jobTitle
  ++ "</p>\n                <p class=\"date-range\">"
  ++ experienceDateRange e
  ++ "</p>\n                <div class=\"responsibilities\">\n                    "
  ++ e.responsibilities
  ++ "\n                </div>\n            </div>\n            "

/-- Professional Experience section (lines 231-253). -/
def experienceSection (l : List Experience) : String :=
  if l = [] then ""
  else
    "\n        <div class=\"section\">\n            <div class=\"section-title\">Professional Experience</div>\n        "
    ++ strJoin (l.map experienceEntry) ++ "</div>"

/-- One education entry (lines 263-270). -/
def educationEntry (e : Education) : String :=
  "\n            <div style=\"margin-bottom: 15px;\">\n                <p class=\"school-name\">"
  ++ e.schoolName
  ++ "</p>\n                <p class=\"degree\">"
  ++ e.major
  ++ "</p>\n                <p class=\"date-range\">"
  ++ e.startDate ++ " - " ++ e.endDate
  ++ "</p>\n                "
  ++ (if e.achievements = "" then "" else "<p>" ++ e.achievements ++ "</p>")
  ++ "\n            </div>\n            "

/-- Education section (lines 255-272). -/
def educationSection (l : List Education) : String :=
  if l = [] then ""
  else
    "\n        <div class=\"section\">\n            <div class=\"section-title\">Education</div>\n        "
    ++ strJoin (l.map educationEntry) ++ "</div>"

/-- Expiry fragment of a certificate: emitted only when expirationDate
is truthy, in parentheses (line 282). -/
def certExpiration (c : Certificate) : String :=
  if c.expirationDate = "" then "" else " (Expires: " ++ c.expirationDate ++ ")"

/-- One certificate entry (lines 284-290). -/
def certEntry (c : Certificate) : String :=
  "\n            <div style=\"margin-bottom: 10px;\">\n                <p><strong>"
  ++ c.name
  ++ "</strong> - "
  ++ c.institution
  ++ "</p>\n                <p class=\"date-range\">"
  ++ "Acquired:" ++ " "
  ++ c.dateAcquired
  ++ certExpiration c
  ++ "</p>\n                "
  ++ (if c.achievements = "" then "" else "<p>" ++ c.achievements ++ "</p>")
  ++ "\n            </div>\n            "

/-- Certifications section (lines 274-292). -/
def certificatesSection (l : List Certificate) : String :=
  if l = [] then ""
  else
    "\n        <div class=\"section\">\n            <div class=\"section-title\">Certifications</div>\n        "
    ++ strJoin (l.map certEntry) ++ "</div>"

/-- One language row, with the proficiency display-capitalized
(lines 302-307). -/
def languageRow (l : LanguageEntry) : String :=
  "\n            <div class=\"language\">\n                <span class=\"language-name\">"
  ++ l.name
  ++ "</span> - \n                <span class=\"language-level\">"
  ++ pyCapitalize l.proficiency
  ++ "</span>\n            </div>\n            "

/-- Languages section (lines 294-309). -/
def languagesSection (l : List LanguageEntry) : String :=
  if l = [] then ""
  else
    "\n        <div class=\"section\">\n            <div class=\"section-title\">Languages</div>\n        "
    ++ strJoin (l.map languageRow) ++ "</div>"

/-- Additional Skills section (lines 311-322). -/
def additionalSection (a : Additional) : String :=
  if a.skills = [] then ""
  else
    "\n        <div class=\"section\">\n            <div class=\"section-title\">Additional Skills</div>\n            <div class=\"skills-list\">\n        "
    ++ strJoin (a.skills.map skillsItem) ++ "</div></div>"

/-- generate_professional_template (lines 95-329): header, then each
conditionally-present section in order, then the closing tags. -/
def generate_professional_template (cv : CVData) : String :=
  headerBlock cv.personal
  ++ summarySection cv.summary
  ++ competenciesSection cv.keyCompetencies
  ++ experienceSection cv.experiences
  ++ educationSection cv.educations
  ++ certificatesSection cv.certificates
  ++ languagesSection cv.languages
  ++ additionalSection cv.additional
  ++ docTail

end PdfGen

namespace PdfGen

/-- Style sheet and document head of the modern template, up to and
including the opening h1 tag (lines 342-474), split into short pieces. -/
def modCss1 : String := "\n    <html>\n    <head>\n        <meta charset=\"UTF-8\">\n        <style>\n            @page \x7b\n                size: A4;\n                margin: 1cm;\n            \x7d\n            body \x7b\n                font-family: Arial, sans-serif;\n                font-size: 11pt;\n                color: #333;\n                line-height: 1.4;\n                margin: 0;\n                padding: 0;\n            \x7d\n            .header \x7b\n                background-color: #03d27c;\n"

def modCss2 : String := "                color: white;\n                padding: 25px;\n                margin-bottom: 20px;\n            \x7d\n            .name \x7b\n                font-size: 24pt;\n                font-weight: bold;\n                margin: 0;\n            \x7d\n            .title \x7b\n                font-size: 14pt;\n                margin: 5px 0 10px 0;\n                opacity: 0.9;\n            \x7d\n            .contact-info \x7b\n                font-size: 10pt;\n                opacity: 0.9;\n"

def modCss3 : String := "            \x7d\n            .main-content \x7b\n                padding: 0 20px;\n            \x7d\n            .section \x7b\n                margin-bottom: 20px;\n            \x7d\n            .section-title \x7b\n                font-size: 14pt;\n                font-weight: bold;\n                color: #03d27c;\n                margin-bottom: 10px;\n                display: flex;\n                align-items: center;\n            \x7d\n            .section-title:before \x7b\n                content: \"\";\n"

def modCss4 : String := "                display: inline-block;\n                width: 10px;\n                height: 10px;\n                background-color: #03d27c;\n                margin-right: 10px;\n            \x7d\n            .company-title \x7b\n                font-weight: bold;\n                margin-bottom: 0;\n                color: #043e44;\n            \x7d\n            .job-title \x7b\n                font-weight: bold;\n                color: #03d27c;\n            \x7d\n            .date-range \x7b\n"

def modCss5 : String := "                font-size: 10pt;\n                color: #666;\n                margin-bottom: 5px;\n            \x7d\n            .responsibilities \x7b\n                margin-top: 5px;\n            \x7d\n            .school-name \x7b\n                font-weight: bold;\n                color: #043e44;\n            \x7d\n            .degree \x7b\n                font-weight: bold;\n            \x7d\n            .skills-list \x7b\n                display: flex;\n                flex-wrap: wrap;\n"

def modCss6 : String := "                gap: 10px;\n            \x7d\n            .skill-pill \x7b\n                background-color: #eee;\n                padding: 5px 10px;\n                border-radius: 15px;\n                font-size: 10pt;\n            \x7d\n            .language \x7b\n                margin-bottom: 5px;\n            \x7d\n            .language-name \x7b\n                font-weight: bold;\n                color: #043e44;\n            \x7d\n            .language-level \x7b\n                font-size: 10pt;\n"

def modCss7 : String := "                color: #03d27c;\n            \x7d\n            .timeline-entry \x7b\n                position: relative;\n                padding-left: 20px;\n                margin-bottom: 15px;\n            \x7d\n            .timeline-entry:before \x7b\n                content: \"\";\n                position: absolute;\n                left: 0;\n                top: 0;\n                bottom: 0;\n                width: 2px;\n                background-color: #eee;\n            \x7d\n"

def modCss8 : String := "            .timeline-entry:after \x7b\n                content: \"\";\n                position: absolute;\n                left: -4px;\n                top: 0;\n                width: 10px;\n                height: 10px;\n                border-radius: 50%;\n                background-color: #03d27c;\n            \x7d\n        </style>\n    </head>\n    <body>\n        <div class=\"header\">\n            <h1 class=\"name\">"

def modCss : String :=
  modCss1 ++ modCss2 ++ modCss3 ++ modCss4 ++ modCss5 ++ modCss6 ++ modCss7 ++ modCss8

/-- Header region of the modern template, ending with the opening of
the main-content container (lines 474-484). -/
def modHeaderBlock (p : Personal) : String :=
  modCss ++ p.firstName ++ " " ++ p.lastName
  ++ "</h1>\n            <div class=\"title\">"
  ++ p.professionalTitle
  ++ "</div>\n            <div class=\"contact-info\">\n                "
  ++ p.email ++ " | " ++ p.phone ++ "\n                "
  ++ (if p.linkedin = "" then "" else " | LinkedIn: " ++ p.linkedin)
  ++ "\n            </div>\n        </div>\n        \n        <div class=\"main-content\">\n    "

/-- Closing tags of the modern template (lines 629-633). -/
def modDocTail : String := "\n        </div>\n    </body>\n    </html>\n    "

/-- Modern summary section (lines 486-493). -/
def modSummarySection (s : SummaryData) : String :=
  if s.summary = "" then ""
  else
    "\n        <div class=\"section\">\n            <div class=\"section-title\">Professional Summary</div>\n            <p>"
    ++ s.summary ++ "</p>\n        </div>\n        "

/-- One modern experience entry (lines 502-515). -/
def modExperienceEntry (e : Experience) : String :=
  "\n            <div class=\"timeline-entry\">\n                <p class=\"company-title\">"
  ++ e.companyName
  ++ "</p>\n                <p class=\"job-title\">"
  ++ e.jobTitle
  ++ "</p>\n                <p class=\"date-range\">"
  ++ e.startDate ++ " - " ++ experienceEndDate e
  ++ "</p>\n                <div class=\"responsibilities\">\n                    "
  ++ e.responsibilities
  ++ "\n                </div>\n            </div>\n            "

/-- Modern experience section (lines 495-517). -/
def modExperienceSection (l : List Experience) : String :=
  if l = [] then ""
  else
    "\n        <div class=\"section\">\n            <div class=\"section-title\">Experience</div>\n        "
    ++ strJoin (l.map modExperienceEntry) ++ "</div>"

/-- One modern education entry (lines 526-534). -/
def modEducationEntry (e : Education) : String :=
  "\n            <div class=\"timeline-entry\">\n                <p class=\"school-name\">"
  ++ e.schoolName
  ++ "</p>\n                <p class=\"degree\">"
  ++ e.major
  ++ "</p>\n                <p class=\"date-range\">"
  ++ e.startDate ++ " - " ++ e.endDate
  ++ "</p>\n                "
  ++ (if e.achievements = "" then "" else "<p>" ++ e.achievements ++ "</p>")
  ++ "\n            </div>\n            "

/-- Modern education section (lines 519-536). -/
def modEducationSection (l : List Education) : String :=
  if l = [] then ""
  else
    "\n        <div class=\"section\">\n            <div class=\"section-title\">Education</div>\n        "
    ++ strJoin (l.map modEducationEntry) ++ "</div>"

/-- One skill pill of the modern template (lines 553, 565, 625). -/
def skillPill (skill : String) : String :=
  "<div class=\"skill-pill\">" ++ skill ++ "</div>"

/-- Modern Key Competencies section (lines 538-569). -/
def modCompetenciesSection (k : KeyCompetencies) : String :=
  if k.technicalSkills = [] ∧ k.softSkills = [] then ""
  else
    "\n        <div class=\"section\">\n            <div class=\"section-title\">Key Competencies</div>\n        "
    ++ (if k.technicalSkills = [] then ""
        else
          "\n            <div style=\"margin-bottom: 10px;\">\n                <p style=\"color: #043e44; font-weight: bold;\">Technical Skills</p>\n                <div class=\"skills-list\">\n            "
          ++ strJoin (k.technicalSkills.map skillPill) ++ "</div></div>")
    ++ (if k.softSkills = [] then ""
        else
          "\n            <div>\n                <p style=\"color: #043e44; font-weight: bold;\">Soft Skills</p>\n                <div class=\"skills-list\">\n            "
          ++ strJoin (k.softSkills.map skillPill) ++ "</div></div>")
    ++ "</div>"

/-- One certificate entry of the modern two-column block (lines 584-593). -/
def modCertEntry (c : Certificate) : String :=
  "\n                <div style=\"margin-bottom: 10px;\">\n                    <p><strong>"
  ++ c.name
  ++ "</strong></p>\n                    <p style=\"margin: 0;\">"
  ++ c.institution
  ++ "</p>\n                    <p class=\"date-range\" style=\"margin-top: 2px;\">Acquired: "
  ++ c.dateAcquired
  ++ certExpiration c
  ++ "</p>\n                </div>\n                "

/-- One language row of the modern two-column block (lines 604-610). -/
def modLanguageRow (l : LanguageEntry) : String :=
  "\n                <div class=\"language\">\n                    <span class=\"language-name\">"
  ++ l.name
  ++ "</span> - \n                    <span class=\"language-level\">"
  ++ pyCapitalize l.proficiency
  ++ "</span>\n                </div>\n                "

/-- Two-column block of certificates and languages in the modern
template: present when either list is non-empty, each column present
only when its list is non-empty (lines 571-614). -/
def modCertsLangsSection (certs : List Certificate) (langs : List LanguageEntry) : String :=
  if certs = [] ∧ langs = [] then ""
  else
    "\n        <div class=\"section\" style=\"display: flex; gap: 20px;\">\n        "
    ++ (if certs = [] then ""
        else
          "\n            <div style=\"flex: 1;\">\n                <div class=\"section-title\">Certifications</div>\n            "
          ++ strJoin (certs.map modCertEntry) ++ "</div>")
    ++ (if langs = [] then ""
        else
          "\n            <div style=\"flex: 1;\">\n                <div class=\"section-title\">Languages</div>\n            "
          ++ strJoin (langs.map modLanguageRow) ++ "</div>")
    ++ "</div>"

/-- Modern Additional Skills section (lines 616-627). -/
def modAdditionalSection (a : Additional) : String :=
  if a.skills = [] then ""
  else
    "\n        <div class=\"section\">\n            <div class=\"section-title\">Additional Skills</div>\n            <div class=\"skills-list\">\n        "
    ++ strJoin (a.skills.map skillPill) ++ "</div></div>"

/-- generate_modern_template (lines 331-635). -/
def generate_modern_template (cv : CVData) : String :=
  modHeaderBlock cv.personal
  ++ modSummarySection cv.summary
  ++ modExperienceSection cv.experiences
  ++ modEducationSection cv.educations
  ++ modCompetenciesSection cv.keyCompetencies
  ++ modCertsLangsSection cv.certificates cv.languages
  ++ modAdditionalSection cv.additional
  ++ modDocTail

end PdfGen

namespace PdfGen

/-- Style sheet and document head of the minimal template, up to and
including the opening h1 tag (lines 648-749), split into short pieces. -/
def minCss1 : String := "\n    <html>\n    <head>\n        <meta charset=\"UTF-8\">\n        <style>\n            @page \x7b\n                size: A4;\n                margin: 1.5cm;\n            \x7d\n            body \x7b\n                font-family: Arial, sans-serif;\n                font-size: 11pt;\n                color: #333;\n                line-height: 1.4;\n                text-align: center;\n            \x7d\n            .header \x7b\n                margin-bottom: 30px;\n            \x7d\n            .name \x7b\n"

def minCss2 : String := "                font-size: 24pt;\n                font-weight: bold;\n                color: #043e44;\n                margin: 0;\n                letter-spacing: 2px;\n            \x7d\n            .title \x7b\n                font-size: 14pt;\n                color: #03d27c;\n                margin: 5px 0 20px 0;\n                font-weight: 300;\n            \x7d\n            .contact-info \x7b\n                margin-bottom: 20px;\n                font-size: 10pt;\n            \x7d\n"

def minCss3 : String := "            .section \x7b\n                margin-bottom: 30px;\n                text-align: left;\n            \x7d\n            .section-title \x7b\n                font-size: 12pt;\n                font-weight: bold;\n                color: #043e44;\n                text-align: center;\n                margin-bottom: 15px;\n                text-transform: uppercase;\n                letter-spacing: 1px;\n            \x7d\n            .section-title:after \x7b\n                content: \"\";\n"

def minCss4 : String := "                display: block;\n                width: 50px;\n                height: 1px;\n                background-color: #03d27c;\n                margin: 5px auto 15px;\n            \x7d\n            .entry \x7b\n                margin-bottom: 20px;\n            \x7d\n            .entry-header \x7b\n                display: flex;\n                justify-content: space-between;\n                align-items: flex-start;\n                margin-bottom: 5px;\n            \x7d\n"

def minCss5 : String := "            .entry-title \x7b\n                font-weight: bold;\n                margin: 0;\n            \x7d\n            .entry-subtitle \x7b\n                font-style: italic;\n                margin: 0;\n            \x7d\n            .date-range \x7b\n                font-size: 10pt;\n                color: #666;\n                text-align: right;\n            \x7d\n            .skills-grid \x7b\n                display: flex;\n                flex-wrap: wrap;\n                justify-content: center;\n"

def minCss6 : String := "                gap: 10px;\n            \x7d\n            .skill-pill \x7b\n                background-color: #f5f5f5;\n                padding: 5px 12px;\n                border-radius: 20px;\n                font-size: 10pt;\n                border: 1px solid #eee;\n            \x7d\n            .divider \x7b\n                height: 1px;\n                background-color: #eee;\n                margin: 30px 0;\n            \x7d\n        </style>\n    </head>\n    <body>\n        <div class=\"header\">\n"

def minCss7 : String := "            <h1 class=\"name\">"

def minCss : String :=
  minCss1 ++ minCss2 ++ minCss3 ++ minCss4 ++ minCss5 ++ minCss6 ++ minCss7

/-- Header region of the minimal template (lines 747-756). -/
def minHeaderBlock (p : Personal) : String :=
  minCss ++ p.firstName ++ " " ++ p.lastName
  ++ "</h1>\n            <div class=\"title\">"
  ++ p.professionalTitle
  ++ "</div>\n            <div class=\"contact-info\">\n                "
  ++ p.email ++ " | " ++ p.phone ++ "\n                "
  ++ (if p.linkedin = "" then "" else " | LinkedIn: " ++ p.linkedin)
  ++ "\n            </div>\n        </div>\n    "

/-- Minimal Profile section, with its trailing divider (lines 758-768). -/
def minSummarySection (s : SummaryData) : String :=
  if s.summary = "" then ""
  else
    "\n        <div class=\"section\">\n            <div class=\"section-title\">Profile</div>\n            <p style=\"text-align: center; max-width: 600px; margin: 0 auto;\">\n                "
    ++ s.summary
    ++ "\n            </p>\n        </div>\n        <div class=\"divider\"></div>\n        "

/-- One minimal experience entry (lines 781-794). -/
def minExperienceEntry (e : Experience) : String :=
  "\n            <div class=\"entry\">\n                <div class=\"entry-header\">\n                    <div>\n                        <p class=\"entry-title\">"
  ++ e.companyName
  ++ "</p>\n                        <p class=\"entry-subtitle\">"
  ++ e.jobTitle
  ++ "</p>\n                    </div>\n                    <p class=\"date-range\">"
  ++ e.startDate ++ " - " ++ experienceEndDate e
  ++ "</p>\n                </div>\n                <div>\n                    "
  ++ e.responsibilities
  ++ "\n                </div>\n            </div>\n            "

/-- Minimal experience section (lines 770-796). -/
def minExperienceSection (l : List Experience) : String :=
  if l = [] then ""
  else
    "\n        <div class=\"section\">\n            <div class=\"section-title\">Experience</div>\n        "
    ++ strJoin (l.map minExperienceEntry) ++ "</div>"

/-- One minimal education entry (lines 807-818). -/
def minEducationEntry (e : Education) : String :=
  "\n            <div class=\"entry\">\n                <div class=\"entry-header\">\n                    <div>\n                        <p class=\"entry-title\">"
  ++ e.schoolName
  ++ "</p>\n                        <p class=\"entry-subtitle\">"
  ++ e.major
  ++ "</p>\n                    </div>\n                    <p class=\"date-range\">"
  ++ e.startDate ++ " - " ++ e.endDate
  ++ "</p>\n                </div>\n                "
  ++ (if e.achievements = "" then "" else "<p>" ++ e.achievements ++ "</p>")
  ++ "\n            </div>\n            "

/-- Minimal education section, preceded by a divider (lines 798-820). -/
def minEducationSection (l : List Education) : String :=
  if l = [] then ""
  else
    "\n        <div class=\"divider\"></div>\n        <div class=\"section\">\n            <div class=\"section-title\">Education</div>\n        "
    ++ strJoin (l.map minEducationEntry) ++ "</div>"

/-- The combined skill list of the minimal template: technical skills,
then soft skills, then additional skills (lines 823-829; the source
guards each extend call, but extending by an empty list is the
identity, so the unconditional concatenation is equivalent). -/
def minAllSkills (cv : CVData) : List String :=
  cv.keyCompetencies.technicalSkills ++ cv.keyCompetencies.softSkills ++ cv.additional.skills

/-- Minimal combined Skills section (lines 831-842). -/
def minSkillsSection (cv : CVData) : String :=
  if minAllSkills cv = [] then ""
  else
    "\n        <div class=\"divider\"></div>\n        <div class=\"section\">\n            <div class=\"section-title\">Skills</div>\n            <div class=\"skills-grid\">\n        "
    ++ strJoin ((minAllSkills cv).map skillPill) ++ "</div></div>"

/-- One minimal language block (lines 854-859). -/
def minLanguageRow (l : LanguageEntry) : String :=
  "\n            <div style=\"margin-bottom: 5px; text-align: center;\">\n                <p style=\"margin: 0;\"><strong>"
  ++ l.name
  ++ "</strong></p>\n                <p style=\"margin: 0; font-size: 10pt; color: #666;\">"
  ++ pyCapitalize l.proficiency
  ++ "</p>\n            </div>\n            "

/-- Minimal languages section (lines 844-861). -/
def minLanguagesSection (l : List LanguageEntry) : String :=
  if l = [] then ""
  else
    "\n        <div class=\"divider\"></div>\n        <div class=\"section\">\n            <div class=\"section-title\">Languages</div>\n            <div style=\"display: flex; justify-content: center; flex-wrap: wrap; gap: 20px;\">\n        "
    ++ strJoin (l.map minLanguageRow) ++ "</div></div>"

/-- One minimal certificate entry (lines 874-881). -/
def minCertEntry (c : Certificate) : String :=
  "\n            <div class=\"entry\" style=\"text-align: center;\">\n                <p style=\"margin: 0;\"><strong>"
  ++ c.name
  ++ "</strong></p>\n                <p style=\"margin: 0; font-style: italic;\">"
  ++ c.institution
  ++ "</p>\n                <p style=\"margin: 5px 0; font-size: 10pt; color: #666;\">Acquired: "
  ++ c.dateAcquired
  ++ certExpiration c
  ++ "</p>\n                "
  ++ (if c.achievements = "" then "" else "<p>" ++ c.achievements ++ "</p>")
  ++ "\n            </div>\n            "

/-- Minimal certificates section (lines 863-883). -/
def minCertificatesSection (l : List Certificate) : String :=
  if l = [] then ""
  else
    "\n        <div class=\"divider\"></div>\n        <div class=\"section\">\n            <div class=\"section-title\">Certifications</div>\n        "
    ++ strJoin (l.map minCertEntry) ++ "</div>"

/-- generate_minimal_template (lines 637-890). -/
def generate_minimal_template (cv : CVData) : String :=
  minHeaderBlock cv.personal
  ++ minSummarySection cv.summary
  ++ minExperienceSection cv.experiences
  ++ minEducationSection cv.educations
  ++ minSkillsSection cv
  ++ minLanguagesSection cv.languages
  ++ minCertificatesSection cv.certificates
  ++ docTail

/-- The template-style dispatch of generate_cv_pdf (lines 80-88): the
HTML content handed to the renderer, selected by template_style with
fallback to the professional template. JSON parsing, the output file
name and the xhtml2pdf call around it are out of scope. -/
def generate_cv_pdf_html (json_data : CVData) (template_style : String) : String :=
  if template_style = "professional" then generate_professional_template json_data
  else if template_style = "modern" then generate_modern_template json_data
  else if template_style = "minimal" then generate_minimal_template json_data
  else generate_professional_template json_data

end PdfGen

/-! ## new-pdf-generator.py -/

namespace NewPdfGen

/-- Style sheet and document head of the professional template of
new-pdf-generator.py, up to and including the opening h1 tag
(lines 67-203), split into short pieces. -/
def nCss1 : String := "\n    <html>\n    <head>\n        <meta charset=\"UTF-8\">\n        <style>\n            @page \x7b\n                size: A4;\n                margin: 1.5cm;\n            \x7d\n            body \x7b\n                font-family: \x27Arial\x27, \x27Helvetica\x27, sans-serif;\n                font-size: 11pt;\n                color: #043e44;\n                line-height: 1.5;\n                margin: 0;\n                padding: 0;\n            \x7d\n            .header \x7b\n                margin-bottom: 20px;\n"

def nCss2 : String := "            \x7d\n            .name \x7b\n                font-size: 24pt;\n                font-weight: bold;\n                color: #043e44;\n                margin: 0;\n                padding: 0;\n            \x7d\n            .contact-info \x7b\n                margin: 5px 0;\n                font-size: 10pt;\n                color: #666;\n            \x7d\n            .section \x7b\n                margin-bottom: 20px;\n                page-break-inside: avoid;\n            \x7d\n"

def nCss3 : String := "            .section-title \x7b\n                font-size: 14pt;\n                font-weight: bold;\n                color: #043e44;\n                border-bottom: 2px solid #03d27c;\n                padding-bottom: 5px;\n                margin-bottom: 15px;\n            \x7d\n            .company-name \x7b\n                font-weight: bold;\n                margin-bottom: 2px;\n                color: #043e44;\n            \x7d\n            .job-title \x7b\n                font-weight: 600;\n"

def nCss4 : String := "                color: #03d27c;\n                margin: 2px 0;\n            \x7d\n            .date-range \x7b\n                font-size: 10pt;\n                color: #666;\n                margin-bottom: 5px;\n            \x7d\n            .responsibilities \x7b\n                margin-top: 8px;\n                text-align: justify;\n            \x7d\n            .school-name \x7b\n                font-weight: bold;\n                color: #043e44;\n                margin-bottom: 2px;\n            \x7d\n"

def nCss5 : String := "            .degree \x7b\n                font-weight: 600;\n                color: #03d27c;\n            \x7d\n            .skills-list \x7b\n                display: flex;\n                flex-wrap: wrap;\n                margin: 0;\n                padding: 0;\n            \x7d\n            .skill-item \x7b\n                background-color: rgba(3, 210, 124, 0.1);\n                border: 1px solid #03d27c;\n                border-radius: 4px;\n                padding: 3px 8px;\n"

def nCss6 : String := "                margin: 3px;\n                font-size: 10pt;\n                color: #043e44;\n                display: inline-block;\n            \x7d\n            .skill-category \x7b\n                font-weight: bold;\n                margin-top: 10px;\n                margin-bottom: 5px;\n                color: #043e44;\n            \x7d\n            .language \x7b\n                margin-bottom: 5px;\n            \x7d\n            .language-name \x7b\n                font-weight: bold;\n            \x7d\n"

def nCss7 : String := "            .language-level \x7b\n                color: #03d27c;\n            \x7d\n            ul \x7b\n                padding-left: 20px;\n                margin: 5px 0;\n            \x7d\n            li \x7b\n                margin-bottom: 3px;\n            \x7d\n            \n            /* Icons */\n            .icon \x7b\n                display: inline-block;\n                width: 16px;\n                height: 16px;\n                margin-right: 5px;\n                vertical-align: middle;\n"

def nCss8 : String := "            \x7d\n            .email-icon::before \x7b\n                content: \"✉\";\n                color: #03d27c;\n            \x7d\n            .phone-icon::before \x7b\n                content: \"☎\";\n                color: #03d27c;\n            \x7d\n            .linkedin-icon::before \x7b\n                content: \"in\";\n                color: #03d27c;\n                font-weight: bold;\n            \x7d\n        </style>\n    </head>\n    <body>\n        <div class=\"header\">\n"

def nCss9 : String := "            <h1 class=\"name\">"

def nCss : String :=
  nCss1 ++ nCss2 ++ nCss3 ++ nCss4 ++ nCss5 ++ nCss6 ++ nCss7 ++ nCss8 ++ nCss9

/-- Header region (lines 202-209): name and icon-decorated contact
line, with the conditional LinkedIn fragment. -/
def headerBlock (p : Personal) : String :=
  nCss ++ p.firstName ++ " " ++ p.lastName
  ++ "</h1>\n            <div class=\"contact-info\">\n                <span class=\"icon email-icon\"></span>"
  ++ p.email
  ++ " \n                <span class=\"icon phone-icon\" style=\"margin-left: 10px;\"></span>"
  ++ p.phone
  ++ "\n                "
  ++ (if p.linkedin = "" then ""
      else "<span class=\"icon linkedin-icon\" style=\"margin-left: 10px;\"></span>" ++ p.linkedin)
  ++ "\n            </div>\n        </div>\n    "

/-- Closing tags (lines 368-371). -/
def docTail : String := "\n    </body>\n    </html>\n    "

/-- Professional Summary section (lines 212-219): the guard checks
that the professional dict is truthy and its summary key truthy; in
the typed model an absent dict and an empty summary both yield the
empty string, so the guard is the non-emptiness of the text. -/
def summarySection (s : SummaryData) : String :=
  if s.summary = "" then ""
  else
    "\n        <div class=\"section\">\n            <div class=\"section-title\">Professional Summary</div>\n            <p>"
    ++ s.summary ++ "</p>\n        </div>\n        "

/-- One skill item (lines 235, 245, 364). -/
def skillItem (skill : String) : String :=
  "<div class=\"skill-item\">" ++ skill ++ "</div>"

/-- Key Competencies section (lines 221-248). -/
def competenciesSection (k : KeyCompetencies) : String :=
  if k.technicalSkills = [] ∧ k.softSkills = [] then ""
  else
    "\n        <div class=\"section\">\n            <div class=\"section-title\">Key Competencies</div>\n        "
    ++ (if k.technicalSkills = [] then ""
        else
          "\n            <div class=\"skill-category\">Technical Skills:</div>\n            <div class=\"skills-list\">\n            "
          ++ strJoin (k.technicalSkills.map skillItem) ++ "</div>")
    ++ (if k.softSkills = [] then ""
        else
          "\n            <div class=\"skill-category\">Soft Skills:</div>\n            <div class=\"skills-list\">\n            "
          ++ strJoin (k.softSkills.map skillItem) ++ "</div>")
    ++ "</div>"

/-- End of the displayed date range of an experience entry
(lines 258-259). -/
def experienceEndDate (e : Experience) : String :=
  if e.isCurrent then "Present" else e.endDate

/-- One experience entry (lines 261-270). -/
def experienceEntry (e : Experience) : String :=
  "\n            <div style=\"margin-bottom: 15px;\">\n                <div class=\"company-name\">"
  ++ e.companyName
  ++ "</div>\n                <div class=\"job-title\">"
  ++ e.jobTitle
  ++ "</div>\n                <div class=\"date-range\">"
  ++ e.startDate ++ " - " ++ experienceEndDate e
  ++ "</div>\n                <div class=\"responsibilities\">\n                    "
  ++ e.responsibilities
  ++ "\n                </div>\n            </div>\n            "

/-- Professional Experience section (lines 250-272). -/
def experienceSection (l : List Experience) : String :=
  if l = [] then ""
  else
    "\n        <div class=\"section\">\n            <div class=\"section-title\">Professional Experience</div>\n        "
    ++ strJoin (l.map experienceEntry) ++ "</div>"

/-- One education entry (lines 282-289). -/
def educationEntry (e : Education) : String :=
  "\n            <div style=\"margin-bottom: 15px;\">\n                <div class=\"school-name\">"
  ++ e.schoolName
  ++ "</div>\n                <div class=\"degree\">"
  ++ e.major
  ++ "</div>\n                <div class=\"date-range\">"
  ++ e.startDate ++ " - " ++ e.endDate
  ++ "</div>\n                "
  ++ (if e.achievements = "" then "" else "<p>" ++ e.achievements ++ "</p>")
  ++ "\n            </div>\n            "

/-- Education section (lines 274-291). -/
def educationSection (l : List Education) : String :=
  if l = [] then ""
  else
    "\n        <div class=\"section\">\n            <div class=\"section-title\">Education</div>\n        "
    ++ strJoin (l.map educationEntry) ++ "</div>"

/-- Expiry suffix of a certificate (line 301): a dash-separated
Expires fragment, emitted only when expirationDate is truthy. -/
def certExpiry (c : Certificate) : String :=
  if c.expirationDate = "" then "" else " - Expires: " ++ c.expirationDate

/-- One certificate entry (lines 303-310). -/
def certEntry (c : Certificate) : String :=
  "\n            <div style=\"margin-bottom: 10px;\">\n                <div class=\"school-name\">"
  ++ c.name
  ++ "</div>\n                <div class=\"job-title\">"
  ++ c.institution
  ++ "</div>\n                <div class=\"date-range\">"
  ++ "Acquired:" ++ " "
  ++ c.dateAcquired
  ++ certExpiry c
  ++ "</div>\n                "
  ++ (if c.achievements = "" then "" else "<p>" ++ c.achievements ++ "</p>")
  ++ "\n            </div>\n            "

/-- Certifications section (lines 293-312). -/
def certificatesSection (l : List Certificate) : String :=
  if l = [] then ""
  else
    "\n        <div class=\"section\">\n            <div class=\"section-title\">Certifications</div>\n        "
    ++ strJoin (l.map certEntry) ++ "</div>"

/-- End of the displayed date range of an extracurricular entry
(lines 322-323). -/
def extraEndDate (x : Extracurricular) : String :=
  if x.isCurrent then "Present" else x.endDate

/-- One extracurricular entry (lines 325-334). -/
def extracurricularEntry (x : Extracurricular) : String :=
  "\n            <div style=\"margin-bottom: 15px;\">\n                <div class=\"company-name\">"
  ++ x.organization
  ++ "</div>\n                <div class=\"job-title\">"
  ++ x.role
  ++ "</div>\n                <div class=\"date-range\">"
  ++ x.startDate ++ " - " ++ extraEndDate x
  ++ "</div>\n                <div class=\"responsibilities\">\n                    "
  ++ x.description
  ++ "\n                </div>\n            </div>\n            "

/-- Extracurricular Activities section (lines 314-336). -/
def extracurricularSection (l : List Extracurricular) : String :=
  if l = [] then ""
  else
    "\n        <div class=\"section\">\n            <div class=\"section-title\">Extracurricular Activities</div>\n        "
    ++ strJoin (l.map extracurricularEntry) ++ "</div>"

/-- One language row (lines 346-350). -/
def languageRow (l : LanguageEntry) : String :=
  "\n            <div class=\"language\">\n                <span class=\"language-name\">"
  ++ l.name
  ++ "</span> - \n                <span class=\"language-level\">"
  ++ pyCapitalize l.proficiency
  ++ "</span>\n            </div>\n            "

/-- Languages section (lines 338-353). -/
def languagesSection (l : List LanguageEntry) : String :=
  if l = [] then ""
  else
    "\n        <div class=\"section\">\n            <div class=\"section-title\">Languages</div>\n        "
    ++ strJoin (l.map languageRow) ++ "</div>"

/-- Additional Skills section (lines 355-366). -/
def additionalSection (a : Additional) : String :=
  if a.skills = [] then ""
  else
    "\n        <div class=\"section\">\n            <div class=\"section-title\">Additional Skills</div>\n            <div class=\"skills-list\">\n        "
    ++ strJoin (a.skills.map skillItem) ++ "</div></div>"

/-- generate_professional_template of new-pdf-generator.py
(lines 52-373). -/
def generate_professional_template (cv : CVData) : String :=
  headerBlock cv.personal
  ++ summarySection cv.professional
  ++ competenciesSection cv.keyCompetencies
  ++ experienceSection cv.experience
  ++ educationSection cv.education
  ++ certificatesSection cv.certificates
  ++ extracurricularSection cv.extracurricular
  ++ languagesSection cv.languages
  ++ additionalSection cv.additional
  ++ docTail

/-- generate_modern_template (lines 375-377): returns the professional
template unchanged. -/
def generate_modern_template (cv : CVData) : String :=
  generate_professional_template cv

/-- generate_minimal_template (lines 379-381): returns the professional
template unchanged. -/
def generate_minimal_template (cv : CVData) : String :=
  generate_professional_template cv

/-- The template-style dispatch of generate_cv_pdf (lines 407-415):
the HTML content handed to the renderer, with fallback to the
professional template; JSON parsing, file naming and the xhtml2pdf call
around it are out of scope. -/
def generate_cv_pdf_html (json_data : CVData) (template_style : String) : String :=
  if template_style = "professional" then generate_professional_template json_data
  else if template_style = "modern" then generate_modern_template json_data
  else if template_style = "minimal" then generate_minimal_template json_data
  else generate_professional_template json_data

end NewPdfGen

/-! ## Runtime-value model of the languages loop of pdf-generator.py -/

namespace PdfGen

/-- One language dict as it arrives from JSON: a key can be absent
(Option.none) or present with an arbitrary runtime value, in
particular null (some PyVal.none). -/
structure LanguageDict where
  name : Option Weasy.PyVal := Option.none
  proficiency : Option Weasy.PyVal := Option.none
  deriving DecidableEq

/-- Python dict.get with a default: the default applies only when the
key is absent, not when the key is present with value None. -/
def dictGet (v : Option Weasy.PyVal) (dflt : Weasy.PyVal) : Weasy.PyVal := v.getD dflt

/-- Python str.capitalize as an attribute lookup on an arbitrary
runtime value: only strings have the attribute; on any other value the
call raises AttributeError, modelled as an error result. -/
def capitalizeVal : Weasy.PyVal → Except String String
  | .str s => .ok (pyCapitalize s)
  | .none => .error "AttributeError: NoneType object has no attribute capitalize"
  | .int _ => .error "AttributeError: int object has no attribute capitalize"
  | .bool _ => .error "AttributeError: bool object has no attribute capitalize"

/-- One iteration of the languages loop (lines 301-307) at the level
of runtime values: renders the row, or propagates the AttributeError
raised by the capitalize call on a non-string proficiency value. -/
def languageRowPy (lang : LanguageDict) : Except String String :=
  match capitalizeVal (dictGet lang.proficiency (.str "")) with
  | .error e => .error e
  | .ok cap =>
    .ok ("\n            <div class=\"language\">\n                <span class=\"language-name\">"
      ++ Weasy.pyStr (dictGet lang.name (.str ""))
      ++ "</span> - \n                <span class=\"language-level\">"
      ++ cap
      ++ "</span>\n            </div>\n            ")

/-- The languages loop over all entries, propagating the first
exception like sequential Python execution does. -/
def languagesLoopPy : List LanguageDict → Except String String
  | [] => .ok ""
  | l :: rest =>
    match languageRowPy l with
    | .error e => .error e
    | .ok s =>
      match languagesLoopPy rest with
      | .error e => .error e
      | .ok r => .ok (s ++ r)

/-- The Languages section of generate_professional_template
(lines 294-309) at the level of runtime values. -/
def languagesSectionPy (langs : List LanguageDict) : Except String String :=
  if langs = [] then .ok ""
  else
    match languagesLoopPy langs with
    | .error e => .error e
    | .ok body =>
      .ok ("\n        <div class=\"section\">\n            <div class=\"section-title\">Languages</div>\n        "
        ++ body ++ "</div>")

end PdfGen

/-! ## Concrete records and chunk decompositions used by the claims -/

/-- The end-to-end scenario record: one current experience entry at
Acme and every other section empty. -/
def acmeRecord : CVData :=
  { experiences := [{ companyName := "Acme", jobTitle := "Engineer",
                      startDate := "2020-01-01", isCurrent := true,
                      responsibilities := "<p>Built things</p>" }] }

/-- A record whose first name carries markup characters. -/
def injRecord : CVData := { personal := { firstName := "<i>" } }

/-- The professional document of pdf-generator.py for the empty record,
as a list of short chunks (used by the chunkwise no-occurrence check). -/
def emptyProfChunks : List String :=
  [PdfGen.profCss1, PdfGen.profCss2, PdfGen.profCss3, PdfGen.profCss4, PdfGen.profCss5,
   " ",
   "</h1>\n            <div class=\"title\">",
   "</div>\n            <div class=\"contact-info\">\n                ",
   " | ",
   "\n                ",
   "\n            </div>\n        </div>\n    ",
   "\n    </body>\n    </html>\n    "]

/-- The professional document of pdf-generator.py for injRecord, as a
list of short chunks. -/
def injProfChunks : List String :=
  [PdfGen.profCss1, PdfGen.profCss2, PdfGen.profCss3, PdfGen.profCss4, PdfGen.profCss5,
   "<i>",
   " ",
   "</h1>\n            <div class=\"title\">",
   "</div>\n            <div class=\"contact-info\">\n                ",
   " | ",
   "\n                ",
   "\n            </div>\n        </div>\n    ",
   "\n    </body>\n    </html>\n    "]

/-- The professional document of pdf-generator.py for acmeRecord, as a
list of short chunks. -/
def acmeChunks : List String :=
  [PdfGen.profCss1, PdfGen.profCss2, PdfGen.profCss3, PdfGen.profCss4, PdfGen.profCss5,
   " ",
   "</h1>\n            <div class=\"title\">",
   "</div>\n            <div class=\"contact-info\">\n                ",
   " | ",
   "\n                ",
   "\n            </div>\n        </div>\n    ",
   "\n        <div class=\"section\">\n            <div class=\"section-title\">Professional Experience</div>\n        ",
   "\n            <div style=\"margin-bottom: 15px;\">\n                <p class=\"company-title\">",
   "Acme",
   "</p>\n                <p class=\"job-title\">",
   "Engineer",
   "</p>\n                <p class=\"date-range\">",
   "2020-01-01",
   " - ",
   "Present",
   "</p>\n                <div class=\"responsibilities\">\n                    ",
   "<p>Built things</p>",
   "\n                </div>\n            </div>\n            ",
   "</div>",
   "\n    </body>\n    </html>\n    "]

/-- The professional document of new-pdf-generator.py for the empty
record, as a list of short chunks. -/
def emptyNewProfChunks : List String :=
  [NewPdfGen.nCss1, NewPdfGen.nCss2, NewPdfGen.nCss3, NewPdfGen.nCss4, NewPdfGen.nCss5,
   NewPdfGen.nCss6, NewPdfGen.nCss7, NewPdfGen.nCss8, NewPdfGen.nCss9,
   " ",
   "</h1>\n            <div class=\"contact-info\">\n                <span class=\"icon email-icon\"></span>",
   " \n                <span class=\"icon phone-icon\" style=\"margin-left: 10px;\"></span>",
   "\n                ",
   "\n            </div>\n        </div>\n    ",
   "\n    </body>\n    </html>\n    "]

/-- A record populating every section, used to witness the verbatim
insertion facts at concrete data. -/
def verbatimRecord : CVData :=
  { personal := { firstName := "Ann", lastName := "Lee", professionalTitle := "Dev",
                  email := "a@b.c", phone := "555", linkedin := "ann-lee" },
    summary := { summary := "Hi" },
    professional := { summary := "Hi" },
    keyCompetencies := { technicalSkills := ["Py<thon"], softSkills := ["Team"] },
    experiences := [{ companyName := "Acme", jobTitle := "Dev", startDate := "2020-01-01",
                      endDate := "2021-01-01", isCurrent := false,
                      responsibilities := "<p>Work</p>" }],
    experience := [{ companyName := "Acme", jobTitle := "Dev", startDate := "2020-01-01",
                     endDate := "2021-01-01", isCurrent := false,
                     responsibilities := "<p>Work</p>" }],
    certificates := [{ name := "AWS", institution := "Amazon", dateAcquired := "2020-01-01",
                       expirationDate := "2025-01-01" }],
    languages := [{ name := "French", proficiency := "fLUENT" }],
    extracurricular := [{ organization := "Club", role := "Lead", startDate := "2019-01-01",
                          isCurrent := true, description := "Fun" }],
    additional := { skills := ["Driving"] } }

/-! ## Lemmas about occurrence -/

theorem listStartsWith_append_self (p r : List Char) :
    listStartsWith p (p ++ r) = true := by
  induction p with
  | nil => rfl
  | cons c cs ih => simp [listStartsWith, ih]

theorem listStartsWith_iff (p s : List Char) :
    listStartsWith p s = true ↔ ∃ r, s = p ++ r := by
  induction p generalizing s with
  | nil => simp [listStartsWith]
  | cons c cs ih =>
    cases s with
    | nil => simp [listStartsWith]
    | cons d ds =>
      simp only [listStartsWith, Bool.and_eq_true, beq_iff_eq, ih]
      constructor
      · rintro ⟨rfl, r, rfl⟩
        exact ⟨r, rfl⟩
      · rintro ⟨r, h⟩
        cases h
        exact ⟨rfl, r, rfl⟩

theorem listContainsSub_iff (p s : List Char) :
    listContainsSub p s = true ↔ Occurs p s := by
  induction s with
  | nil =>
    simp only [listContainsSub, listStartsWith_iff, Occurs]
    constructor
    · rintro ⟨r, h⟩
      exact ⟨[], r, by simpa using h⟩
    · rintro ⟨x, y, h⟩
      have h' : x = [] ∧ p = [] ∧ y = [] := by simpa using h.symm
      exact ⟨[], by simp [h'.2.1]⟩
  | cons c cs ih =>
    simp only [listContainsSub, Bool.or_eq_true, listStartsWith_iff, ih, Occurs]
    constructor
    · rintro (⟨r, h⟩ | ⟨x, y, h⟩)
      · exact ⟨[], r, by simpa using h⟩
      · exact ⟨c :: x, y, by simp [h]⟩
    · rintro ⟨x, y, h⟩
      cases x with
      | nil => exact Or.inl ⟨y, by simpa using h⟩
      | cons a as =>
        right
        rcases h with h
        simp only [List.cons_append, List.cons.injEq] at h
        exact ⟨as, y, h.2⟩

theorem strOccurs_iff_contains (p s : String) :
    StrOccurs p s ↔ strContains s p = true := by
  rw [strContains, listContainsSub_iff]
  constructor
  · rintro ⟨x, y, rfl⟩
    exact ⟨x.data, y.data, by simp [String.data_append]⟩
  · rintro ⟨x, y, h⟩
    refine ⟨⟨x⟩, ⟨y⟩, ?_⟩
    apply String.ext
    simpa [String.data_append] using h

theorem strOccurs_of_contains {p s : String} (h : strContains s p = true) :
    StrOccurs p s := (strOccurs_iff_contains p s).mpr h

theorem not_strOccurs_of_contains {p s : String} (h : strContains s p = false) :
    ¬ StrOccurs p s := by
  intro hocc
  rw [strOccurs_iff_contains, h] at hocc
  exact Bool.false_ne_true hocc

theorem takeJoin_eq (k : Nat) (l : List (List Char)) :
    takeJoin k l = (joinL l).take k := by
  induction l generalizing k with
  | nil => simp [takeJoin, joinL]
  | cons a rest ih =>
    simp [takeJoin, joinL, List.take_append_eq_append_take, ih]

theorem suffix_in_suffixTail {a x p₁ : List Char} {k : Nat}
    (ha : a = x ++ p₁) (hlen : p₁.length ≤ k) :
    ∃ z, suffixTail k a = z ++ p₁ := by
  subst ha
  refine ⟨x.drop ((x.length + p₁.length) - k), ?_⟩
  rw [suffixTail, List.length_append]
  rw [List.drop_append_of_le_length (by omega)]

theorem head_in_take {b p₂ y : List Char} {k : Nat}
    (hb : b = p₂ ++ y) (hlen : p₂.length ≤ k) :
    ∃ w, b.take k = p₂ ++ w := by
  subst hb
  refine ⟨y.take (k - p₂.length), ?_⟩
  rw [List.take_append_eq_append_take, List.take_of_length_le hlen]

theorem occurs_append {p a b : List Char} (h : Occurs p (a ++ b)) :
    Occurs p a ∨ Occurs p b ∨
      ∃ p₁ p₂, p = p₁ ++ p₂ ∧ p₁ ≠ [] ∧ p₂ ≠ [] ∧
        (∃ x, a = x ++ p₁) ∧ (∃ y, b = p₂ ++ y) := by
  rcases h with ⟨x, y, h⟩
  rw [List.append_assoc] at h
  rcases List.append_eq_append_iff.mp h with ⟨a', rfl, hb⟩ | ⟨c', rfl, hc⟩
  · exact Or.inr (Or.inl ⟨a', y, by simpa using hb⟩)
  · rcases List.append_eq_append_iff.mp hc with ⟨d, rfl, hy⟩ | ⟨c'', hp, hb⟩
    · exact Or.inl ⟨x, d, by simp⟩
    · by_cases h1 : c' = []
      · subst h1
        have hp' : p = c'' := by simpa using hp
        exact Or.inr (Or.inl ⟨[], y, by simp [hb, hp']⟩)
      · by_cases h2 : c'' = []
        · subst h2
          exact Or.inl ⟨x, [], by simp [hp]⟩
        · exact Or.inr (Or.inr ⟨c', c'', hp, h1, h2, ⟨x, rfl⟩, ⟨y, hb⟩⟩)

theorem noOccJoin_sound {p : List Char} (hp : p ≠ []) :
    ∀ l, noOccJoin p l = true → ¬ Occurs p (joinL l) := by
  intro l
  induction l with
  | nil =>
    intro _ hocc
    rcases hocc with ⟨x, y, h⟩
    have h' : x = [] ∧ p = [] ∧ y = [] := by simpa [joinL] using h.symm
    exact hp h'.2.1
  | cons a rest ih =>
    intro hchk hocc
    simp only [noOccJoin, Bool.and_eq_true, Bool.not_eq_true'] at hchk
    obtain ⟨⟨h1, h2⟩, h3⟩ := hchk
    rcases occurs_append (p := p) (a := a) (b := joinL rest) hocc with
      hin | hin | ⟨p₁, p₂, hp12, hne1, hne2, ⟨x, hx⟩, ⟨y, hy⟩⟩
    · rw [(listContainsSub_iff p a).mpr hin] at h1
      exact Bool.noConfusion h1
    · exact ih h3 hin
    · have hlen : p.length = p₁.length + p₂.length := by
        rw [hp12, List.length_append]
      have hpos1 : 0 < p₁.length := List.length_pos.mpr hne1
      have hpos2 : 0 < p₂.length := List.length_pos.mpr hne2
      obtain ⟨z, hz⟩ := suffix_in_suffixTail hx (k := p.length - 1) (by omega)
      obtain ⟨w, hw⟩ := head_in_take hy (k := p.length - 1) (by omega)
      have hwin : Occurs p (suffixTail (p.length - 1) a ++ takeJoin (p.length - 1) rest) := by
        refine ⟨z, w, ?_⟩
        rw [takeJoin_eq, hz, hw, hp12]
        simp [List.append_assoc]
      rw [(listContainsSub_iff _ _).mpr hwin] at h2
      exact Bool.noConfusion h2

theorem strJoin_data (l : List String) :
    (strJoin l).data = joinL (l.map String.data) := by
  induction l with
  | nil => rfl
  | cons s rest ih => simp [strJoin, joinL, String.data_append, ih]

/-- Main absence principle: if the chunkwise checker clears pattern `p`
against the chunk list `l`, then `p` does not occur in the joined string. -/
theorem not_strOccurs_of_chunks {p : String} (l : List String)
    (hp : p.data ≠ [])
    (h : noOccJoin p.data (l.map String.data) = true) :
    ¬ StrOccurs p (strJoin l) := by
  intro hocc
  rw [strOccurs_iff_contains, strContains, strJoin_data] at hocc
  exact noOccJoin_sound hp (l.map String.data) h ((listContainsSub_iff _ _).mp hocc)

theorem strOccurs_append_right {p s t : String} (h : StrOccurs p s) :
    StrOccurs p (s ++ t) := by
  rcases h with ⟨x, y, rfl⟩
  exact ⟨x, y ++ t, by simp [String.append_assoc]⟩

theorem strOccurs_append_left {p s t : String} (h : StrOccurs p t) :
    StrOccurs p (s ++ t) := by
  rcases h with ⟨x, y, rfl⟩
  exact ⟨s ++ x, y, by simp [String.append_assoc]⟩

theorem str_append_empty (s : String) : s ++ "" = s := by
  apply String.ext
  simp [String.data_append]

theorem str_empty_append (s : String) : "" ++ s = s := by
  apply String.ext
  simp [String.data_append]

theorem emptyProf_eq : PdfGen.generate_professional_template {} = strJoin emptyProfChunks := by
  simp [PdfGen.generate_professional_template, PdfGen.headerBlock, PdfGen.profCss,
        PdfGen.summarySection, PdfGen.competenciesSection, PdfGen.experienceSection,
        PdfGen.educationSection, PdfGen.certificatesSection, PdfGen.languagesSection,
        PdfGen.additionalSection, PdfGen.docTail, emptyProfChunks, strJoin,
        String.append_assoc, str_append_empty, str_empty_append]

theorem injProf_eq : PdfGen.generate_professional_template injRecord = strJoin injProfChunks := by
  simp [PdfGen.generate_professional_template, PdfGen.headerBlock, PdfGen.profCss,
        PdfGen.summarySection, PdfGen.competenciesSection, PdfGen.experienceSection,
        PdfGen.educationSection, PdfGen.certificatesSection, PdfGen.languagesSection,
        PdfGen.additionalSection, PdfGen.docTail, injRecord, injProfChunks, strJoin,
        String.append_assoc, str_append_empty, str_empty_append]

theorem acmeProf_eq : PdfGen.generate_professional_template acmeRecord = strJoin acmeChunks := by
  simp [PdfGen.generate_professional_template, PdfGen.headerBlock, PdfGen.profCss,
        PdfGen.summarySection, PdfGen.competenciesSection, PdfGen.experienceSection,
        PdfGen.experienceEntry, PdfGen.experienceDateRange, PdfGen.experienceEndDate,
        PdfGen.educationSection, PdfGen.certificatesSection, PdfGen.languagesSection,
        PdfGen.additionalSection, PdfGen.docTail, acmeRecord, acmeChunks, strJoin,
        String.append_assoc, str_append_empty, str_empty_append]

theorem emptyNewProf_eq :
    NewPdfGen.generate_professional_template {} = strJoin emptyNewProfChunks := by
  simp [NewPdfGen.generate_professional_template, NewPdfGen.headerBlock, NewPdfGen.nCss,
        NewPdfGen.summarySection, NewPdfGen.competenciesSection, NewPdfGen.experienceSection,
        NewPdfGen.educationSection, NewPdfGen.certificatesSection,
        NewPdfGen.extracurricularSection, NewPdfGen.languagesSection,
        NewPdfGen.additionalSection, NewPdfGen.docTail, emptyNewProfChunks, strJoin,
        String.append_assoc, str_append_empty, str_empty_append]

theorem strOccurs_head (p t : String) : StrOccurs p (p ++ t) :=
  ⟨"", t, by rw [str_empty_append]⟩

theorem strOccurs_three (a b c t : String) :
    StrOccurs (a ++ b ++ c) (a ++ (b ++ (c ++ t))) :=
  ⟨"", t, by simp [str_empty_append, String.append_assoc]⟩

theorem strOccurs_strJoin_of_mem {α : Type} (f : α → String) {a : α} {l : List α}
    (h : a ∈ l) : StrOccurs (f a) (strJoin (l.map f)) := by
  induction l with
  | nil => cases h
  | cons b bs ih =>
    simp only [List.map, strJoin]
    rcases List.mem_cons.mp h with rfl | hmem
    · exact strOccurs_head _ _
    · exact strOccurs_append_left (ih hmem)


/-! ## Claims -/

/-- Claim C1, counterexample: plain-text field values are not escaped.
For a record whose first name is an italic tag, the professional
document generated by pdf-generator.py contains the raw markup
characters of the field value, and does not contain the escaped form
that the spec requires of the assembler. -/
theorem c1_escaping_counterexample :
    StrOccurs "<i>" (PdfGen.generate_professional_template injRecord)
    ∧ ¬ StrOccurs (htmlEscapeSpec "<i>") (PdfGen.generate_professional_template injRecord)
    ∧ htmlEscapeSpec "<i>" = "&lt;i&gt;" := by
  refine ⟨?_, ?_, by decide⟩
  · rw [injProf_eq]
    simp only [injProfChunks, strJoin]
    iterate 5 apply strOccurs_append_left
    exact strOccurs_head _ _
  · have he : htmlEscapeSpec "<i>" = "&lt;i&gt;" := by decide
    rw [he, injProf_eq]
    exact not_strOccurs_of_chunks injProfChunks (by decide) (by decide)

/-- Claim C1, amended: no escaping is applied. For every record, each
listed value that the professional templates insert arrives unescaped
in the generated document of both files: the document starts with the
style sheet and the raw name, title (pdf-generator.py only), email and
phone; the linkedin value, the summary text, each skill, each
experience and extracurricular entry (organization, role, raw dates and
the rich-text description), each certificate entry (name, institution,
acquired and expiry dates, achievements) and each language row appear
verbatim between their surrounding literals. The one transformed value
is the proficiency level, inserted unescaped after display
capitalization (pyCapitalize), not verbatim. -/
theorem c1_verbatim_insertion :
    ∀ cv : CVData,
      (∃ rest, PdfGen.generate_professional_template cv
        = PdfGen.profCss ++ cv.personal.firstName ++ " " ++ cv.personal.lastName
          ++ "</h1>\n            <div class=\"title\">" ++ cv.personal.professionalTitle
          ++ "</div>\n            <div class=\"contact-info\">\n                "
          ++ cv.personal.email ++ " | " ++ cv.personal.phone ++ "\n                " ++ rest)
      ∧ (cv.personal.linkedin ≠ "" → ∃ pre rest,
          PdfGen.generate_professional_template cv
            = pre ++ " | LinkedIn: " ++ cv.personal.linkedin ++ rest)
      ∧ (cv.summary.summary ≠ "" →
          StrOccurs ("\n        <div class=\"section\">\n            <div class=\"section-title\">Professional Summary</div>\n            <p>"
              ++ cv.summary.summary ++ "</p>\n        </div>\n        ")
            (PdfGen.generate_professional_template cv))
      ∧ (∀ s, s ∈ cv.keyCompetencies.technicalSkills →
          StrOccurs ("<div class=\"skills-item\">• " ++ s ++ "</div>")
            (PdfGen.generate_professional_template cv))
      ∧ (∀ s, s ∈ cv.keyCompetencies.softSkills →
          StrOccurs ("<div class=\"skills-item\">• " ++ s ++ "</div>")
            (PdfGen.generate_professional_template cv))
      ∧ (∀ s, s ∈ cv.additional.skills →
          StrOccurs ("<div class=\"skills-item\">• " ++ s ++ "</div>")
            (PdfGen.generate_professional_template cv))
      ∧ (∀ e, e ∈ cv.experiences →
          StrOccurs ("\n            <div style=\"margin-bottom: 15px;\">\n                <p class=\"company-title\">"
              ++ e.companyName ++ "</p>\n                <p class=\"job-title\">" ++ e.jobTitle
              ++ "</p>\n                <p class=\"date-range\">" ++ e.startDate ++ " - "
              ++ PdfGen.experienceEndDate e
              ++ "</p>\n                <div class=\"responsibilities\">\n                    "
              ++ e.responsibilities ++ "\n                </div>\n            </div>\n            ")
            (PdfGen.generate_professional_template cv))
      ∧ (∀ c, c ∈ cv.certificates →
          StrOccurs ("\n            <div style=\"margin-bottom: 10px;\">\n                <p><strong>"
              ++ c.name ++ "</strong> - " ++ c.institution
              ++ "</p>\n                <p class=\"date-range\">" ++ "Acquired:" ++ " "
              ++ c.dateAcquired ++ PdfGen.certExpiration c ++ "</p>\n                "
              ++ (if c.achievements = "" then "" else "<p>" ++ c.achievements ++ "</p>")
              ++ "\n            </div>\n            ")
            (PdfGen.generate_professional_template cv))
      ∧ (∀ l, l ∈ cv.languages →
          StrOccurs ("\n            <div class=\"language\">\n                <span class=\"language-name\">"
              ++ l.name ++ "</span> - \n                <span class=\"language-level\">"
              ++ pyCapitalize l.proficiency ++ "</span>\n            </div>\n            ")
            (PdfGen.generate_professional_template cv))
      ∧ (∃ rest, NewPdfGen.generate_professional_template cv
        = NewPdfGen.nCss ++ cv.personal.firstName ++ " " ++ cv.personal.lastName
          ++ "</h1>\n            <div class=\"contact-info\">\n                <span class=\"icon email-icon\"></span>"
          ++ cv.personal.email
          ++ " \n                <span class=\"icon phone-icon\" style=\"margin-left: 10px;\"></span>"
          ++ cv.personal.phone ++ "\n                " ++ rest)
      ∧ (cv.personal.linkedin ≠ "" → ∃ pre rest,
          NewPdfGen.generate_professional_template cv
            = pre ++ "<span class=\"icon linkedin-icon\" style=\"margin-left: 10px;\"></span>"
              ++ cv.personal.linkedin ++ rest)
      ∧ (cv.professional.summary ≠ "" →
          StrOccurs ("\n        <div class=\"section\">\n            <div class=\"section-title\">Professional Summary</div>\n            <p>"
              ++ cv.professional.summary ++ "</p>\n        </div>\n        ")
            (NewPdfGen.generate_professional_template cv))
      ∧ (∀ s, s ∈ cv.keyCompetencies.technicalSkills →
          StrOccurs ("<div class=\"skill-item\">" ++ s ++ "</div>")
            (NewPdfGen.generate_professional_template cv))
      ∧ (∀ s, s ∈ cv.keyCompetencies.softSkills →
          StrOccurs ("<div class=\"skill-item\">" ++ s ++ "</div>")
            (NewPdfGen.generate_professional_template cv))
      ∧ (∀ s, s ∈ cv.additional.skills →
          StrOccurs ("<div class=\"skill-item\">" ++ s ++ "</div>")
            (NewPdfGen.generate_professional_template cv))
      ∧ (∀ e, e ∈ cv.experience →
          StrOccurs ("\n            <div style=\"margin-bottom: 15px;\">\n                <div class=\"company-name\">"
              ++ e.companyName ++ "</div>\n                <div class=\"job-title\">" ++ e.jobTitle
              ++ "</div>\n                <div class=\"date-range\">" ++ e.startDate ++ " - "
              ++ NewPdfGen.experienceEndDate e
              ++ "</div>\n                <div class=\"responsibilities\">\n                    "
              ++ e.responsibilities ++ "\n                </div>\n            </div>\n            ")
            (NewPdfGen.generate_professional_template cv))
      ∧ (∀ x, x ∈ cv.extracurricular →
          StrOccurs ("\n            <div style=\"margin-bottom: 15px;\">\n                <div class=\"company-name\">"
              ++ x.organization ++ "</div>\n                <div class=\"job-title\">" ++ x.role
              ++ "</div>\n                <div class=\"date-range\">" ++ x.startDate ++ " - "
              ++ NewPdfGen.extraEndDate x
              ++ "</div>\n                <div class=\"responsibilities\">\n                    "
              ++ x.description ++ "\n                </div>\n            </div>\n            ")
            (NewPdfGen.generate_professional_template cv))
      ∧ (∀ c, c ∈ cv.certificates →
          StrOccurs ("\n            <div style=\"margin-bottom: 10px;\">\n                <div class=\"school-name\">"
              ++ c.name ++ "</div>\n                <div class=\"job-title\">" ++ c.institution
              ++ "</div>\n                <div class=\"date-range\">" ++ "Acquired:" ++ " "
              ++ c.dateAcquired ++ NewPdfGen.certExpiry c ++ "</div>\n                "
              ++ (if c.achievements = "" then "" else "<p>" ++ c.achievements ++ "</p>")
              ++ "\n            </div>\n            ")
            (NewPdfGen.generate_professional_template cv))
      ∧ (∀ l, l ∈ cv.languages →
          StrOccurs ("\n            <div class=\"language\">\n                <span class=\"language-name\">"
              ++ l.name ++ "</span> - \n                <span class=\"language-level\">"
              ++ pyCapitalize l.proficiency ++ "</span>\n            </div>\n            ")
            (NewPdfGen.generate_professional_template cv)) := by
  intro cv
  refine ⟨?_, ?_, ?_, ?_, ?_, ?_, ?_, ?_, ?_, ?_, ?_, ?_, ?_, ?_, ?_, ?_, ?_, ?_, ?_⟩
  · refine ⟨(if cv.personal.linkedin = "" then "" else " | LinkedIn: " ++ cv.personal.linkedin)
      ++ "\n            </div>\n        </div>\n    "
      ++ PdfGen.summarySection cv.summary
      ++ PdfGen.competenciesSection cv.keyCompetencies
      ++ PdfGen.experienceSection cv.experiences
      ++ PdfGen.educationSection cv.educations
      ++ PdfGen.certificatesSection cv.certificates
      ++ PdfGen.languagesSection cv.languages
      ++ PdfGen.additionalSection cv.additional
      ++ PdfGen.docTail, ?_⟩
    simp [PdfGen.generate_professional_template, PdfGen.headerBlock, String.append_assoc]
  · intro h
    refine ⟨PdfGen.profCss ++ cv.personal.firstName ++ " " ++ cv.personal.lastName
      ++ "</h1>\n            <div class=\"title\">" ++ cv.personal.professionalTitle
      ++ "</div>\n            <div class=\"contact-info\">\n                "
      ++ cv.personal.email ++ " | " ++ cv.personal.phone ++ "\n                ",
      "\n            </div>\n        </div>\n    "
      ++ PdfGen.summarySection cv.summary
      ++ PdfGen.competenciesSection cv.keyCompetencies
      ++ PdfGen.experienceSection cv.experiences
      ++ PdfGen.educationSection cv.educations
      ++ PdfGen.certificatesSection cv.certificates
      ++ PdfGen.languagesSection cv.languages
      ++ PdfGen.additionalSection cv.additional
      ++ PdfGen.docTail, ?_⟩
    apply String.ext
    simp [PdfGen.generate_professional_template, PdfGen.headerBlock, h,
      String.data_append, List.append_assoc]
  · intro h
    rw [show ("\n        <div class=\"section\">\n            <div class=\"section-title\">Professional Summary</div>\n            <p>"
        ++ cv.summary.summary ++ "</p>\n        </div>\n        ")
      = PdfGen.summarySection cv.summary from by
        simp [PdfGen.summarySection, h, String.append_assoc]]
    simp only [PdfGen.generate_professional_template, String.append_assoc]
    apply strOccurs_append_left
    exact strOccurs_head _ _
  · intro s hs
    have htech : cv.keyCompetencies.technicalSkills ≠ [] := by
      intro hnil
      rw [hnil] at hs
      exact absurd hs (List.not_mem_nil s)
    have houter : ¬(cv.keyCompetencies.technicalSkills = [] ∧ cv.keyCompetencies.softSkills = []) :=
      fun hand => htech hand.1
    have h1 := strOccurs_strJoin_of_mem PdfGen.skillsItem hs
    rw [show ("<div class=\"skills-item\">• " ++ s ++ "</div>") = PdfGen.skillsItem s from by
      simp [PdfGen.skillsItem, String.append_assoc]]
    simp only [PdfGen.generate_professional_template, PdfGen.competenciesSection,
      if_neg houter, if_neg htech, String.append_assoc]
    repeat
      first
        | exact strOccurs_append_right h1
        | apply strOccurs_append_left
  · intro s hs
    have hsoft : cv.keyCompetencies.softSkills ≠ [] := by
      intro hnil
      rw [hnil] at hs
      exact absurd hs (List.not_mem_nil s)
    have houter : ¬(cv.keyCompetencies.technicalSkills = [] ∧ cv.keyCompetencies.softSkills = []) :=
      fun hand => hsoft hand.2
    have h1 := strOccurs_strJoin_of_mem PdfGen.skillsItem hs
    rw [show ("<div class=\"skills-item\">• " ++ s ++ "</div>") = PdfGen.skillsItem s from by
      simp [PdfGen.skillsItem, String.append_assoc]]
    simp only [PdfGen.generate_professional_template, PdfGen.competenciesSection,
      if_neg houter, if_neg hsoft, String.append_assoc]
    repeat
      first
        | exact strOccurs_append_right h1
        | apply strOccurs_append_left
  · intro s hs
    have hne : cv.additional.skills ≠ [] := by
      intro hnil
      rw [hnil] at hs
      exact absurd hs (List.not_mem_nil s)
    have h1 := strOccurs_strJoin_of_mem PdfGen.skillsItem hs
    rw [show ("<div class=\"skills-item\">• " ++ s ++ "</div>") = PdfGen.skillsItem s from by
      simp [PdfGen.skillsItem, String.append_assoc]]
    simp only [PdfGen.generate_professional_template, PdfGen.additionalSection,
      if_neg hne, String.append_assoc]
    repeat
      first
        | exact strOccurs_append_right h1
        | apply strOccurs_append_left
  · intro e he
    have hne : cv.experiences ≠ [] := by
      intro hnil
      rw [hnil] at he
      exact absurd he (List.not_mem_nil e)
    have h1 := strOccurs_strJoin_of_mem PdfGen.experienceEntry he
    rw [show ("\n            <div style=\"margin-bottom: 15px;\">\n                <p class=\"company-title\">"
        ++ e.companyName ++ "</p>\n                <p class=\"job-title\">" ++ e.jobTitle
        ++ "</p>\n                <p class=\"date-range\">" ++ e.startDate ++ " - "
        ++ PdfGen.experienceEndDate e
        ++ "</p>\n                <div class=\"responsibilities\">\n                    "
        ++ e.responsibilities ++ "\n                </div>\n            </div>\n            ")
      = PdfGen.experienceEntry e from by
        simp [PdfGen.experienceEntry, PdfGen.experienceDateRange, String.append_assoc]]
    simp only [PdfGen.generate_professional_template, PdfGen.experienceSection,
      if_neg hne, String.append_assoc]
    repeat
      first
        | exact strOccurs_append_right h1
        | apply strOccurs_append_left
  · intro c hc
    have hne : cv.certificates ≠ [] := by
      intro hnil
      rw [hnil] at hc
      exact absurd hc (List.not_mem_nil c)
    have h1 := strOccurs_strJoin_of_mem PdfGen.certEntry hc
    rw [show ("\n            <div style=\"margin-bottom: 10px;\">\n                <p><strong>"
        ++ c.name ++ "</strong> - " ++ c.institution
        ++ "</p>\n                <p class=\"date-range\">" ++ "Acquired:" ++ " "
        ++ c.dateAcquired ++ PdfGen.certExpiration c ++ "</p>\n                "
        ++ (if c.achievements = "" then "" else "<p>" ++ c.achievements ++ "</p>")
        ++ "\n            </div>\n            ")
      = PdfGen.certEntry c from by
        simp [PdfGen.certEntry, String.append_assoc]]
    simp only [PdfGen.generate_professional_template, PdfGen.certificatesSection,
      if_neg hne, String.append_assoc]
    repeat
      first
        | exact strOccurs_append_right h1
        | apply strOccurs_append_left
  · intro l hl
    have hne : cv.languages ≠ [] := by
      intro hnil
      rw [hnil] at hl
      exact absurd hl (List.not_mem_nil l)
    have h1 := strOccurs_strJoin_of_mem PdfGen.languageRow hl
    rw [show ("\n            <div class=\"language\">\n                <span class=\"language-name\">"
        ++ l.name ++ "</span> - \n                <span class=\"language-level\">"
        ++ pyCapitalize l.proficiency ++ "</span>\n            </div>\n            ")
      = PdfGen.languageRow l from by
        simp [PdfGen.languageRow, String.append_assoc]]
    simp only [PdfGen.generate_professional_template, PdfGen.languagesSection,
      if_neg hne, String.append_assoc]
    repeat
      first
        | exact strOccurs_append_right h1
        | apply strOccurs_append_left
  · refine ⟨(if cv.personal.linkedin = "" then ""
        else "<span class=\"icon linkedin-icon\" style=\"margin-left: 10px;\"></span>"
          ++ cv.personal.linkedin)
      ++ "\n            </div>\n        </div>\n    "
      ++ NewPdfGen.summarySection cv.professional
      ++ NewPdfGen.competenciesSection cv.keyCompetencies
      ++ NewPdfGen.experienceSection cv.experience
      ++ NewPdfGen.educationSection cv.education
      ++ NewPdfGen.certificatesSection cv.certificates
      ++ NewPdfGen.extracurricularSection cv.extracurricular
      ++ NewPdfGen.languagesSection cv.languages
      ++ NewPdfGen.additionalSection cv.additional
      ++ NewPdfGen.docTail, ?_⟩
    simp [NewPdfGen.generate_professional_template, NewPdfGen.headerBlock, String.append_assoc]
  · intro h
    refine ⟨NewPdfGen.nCss ++ cv.personal.firstName ++ " " ++ cv.personal.lastName
      ++ "</h1>\n            <div class=\"contact-info\">\n                <span class=\"icon email-icon\"></span>"
      ++ cv.personal.email
      ++ " \n                <span class=\"icon phone-icon\" style=\"margin-left: 10px;\"></span>"
      ++ cv.personal.phone ++ "\n                ",
      "\n            </div>\n        </div>\n    "
      ++ NewPdfGen.summarySection cv.professional
      ++ NewPdfGen.competenciesSection cv.keyCompetencies
      ++ NewPdfGen.experienceSection cv.experience
      ++ NewPdfGen.educationSection cv.education
      ++ NewPdfGen.certificatesSection cv.certificates
      ++ NewPdfGen.extracurricularSection cv.extracurricular
      ++ NewPdfGen.languagesSection cv.languages
      ++ NewPdfGen.additionalSection cv.additional
      ++ NewPdfGen.docTail, ?_⟩
    apply String.ext
    simp [NewPdfGen.generate_professional_template, NewPdfGen.headerBlock, h,
      String.data_append, List.append_assoc]
  · intro h
    rw [show ("\n        <div class=\"section\">\n            <div class=\"section-title\">Professional Summary</div>\n            <p>"
        ++ cv.professional.summary ++ "</p>\n        </div>\n        ")
      = NewPdfGen.summarySection cv.professional from by
        simp [NewPdfGen.summarySection, h, String.append_assoc]]
    simp only [NewPdfGen.generate_professional_template, String.append_assoc]
    apply strOccurs_append_left
    exact strOccurs_head _ _
  · intro s hs
    have htech : cv.keyCompetencies.technicalSkills ≠ [] := by
      intro hnil
      rw [hnil] at hs
      exact absurd hs (List.not_mem_nil s)
    have houter : ¬(cv.keyCompetencies.technicalSkills = [] ∧ cv.keyCompetencies.softSkills = []) :=
      fun hand => htech hand.1
    have h1 := strOccurs_strJoin_of_mem NewPdfGen.skillItem hs
    rw [show ("<div class=\"skill-item\">" ++ s ++ "</div>") = NewPdfGen.skillItem s from by
      simp [NewPdfGen.skillItem, String.append_assoc]]
    simp only [NewPdfGen.generate_professional_template, NewPdfGen.competenciesSection,
      if_neg houter, if_neg htech, String.append_assoc]
    repeat
      first
        | exact strOccurs_append_right h1
        | apply strOccurs_append_left
  · intro s hs
    have hsoft : cv.keyCompetencies.softSkills ≠ [] := by
      intro hnil
      rw [hnil] at hs
      exact absurd hs (List.not_mem_nil s)
    have houter : ¬(cv.keyCompetencies.technicalSkills = [] ∧ cv.keyCompetencies.softSkills = []) :=
      fun hand => hsoft hand.2
    have h1 := strOccurs_strJoin_of_mem NewPdfGen.skillItem hs
    rw [show ("<div class=\"skill-item\">" ++ s ++ "</div>") = NewPdfGen.skillItem s from by
      simp [NewPdfGen.skillItem, String.append_assoc]]
    simp only [NewPdfGen.generate_professional_template, NewPdfGen.competenciesSection,
      if_neg houter, if_neg hsoft, String.append_assoc]
    repeat
      first
        | exact strOccurs_append_right h1
        | apply strOccurs_append_left
  · intro s hs
    have hne : cv.additional.skills ≠ [] := by
      intro hnil
      rw [hnil] at hs
      exact absurd hs (List.not_mem_nil s)
    have h1 := strOccurs_strJoin_of_mem NewPdfGen.skillItem hs
    rw [show ("<div class=\"skill-item\">" ++ s ++ "</div>") = NewPdfGen.skillItem s from by
      simp [NewPdfGen.skillItem, String.append_assoc]]
    simp only [NewPdfGen.generate_professional_template, NewPdfGen.additionalSection,
      if_neg hne, String.append_assoc]
    repeat
      first
        | exact strOccurs_append_right h1
        | apply strOccurs_append_left
  · intro e he
    have hne : cv.experience ≠ [] := by
      intro hnil
      rw [hnil] at he
      exact absurd he (List.not_mem_nil e)
    have h1 := strOccurs_strJoin_of_mem NewPdfGen.experienceEntry he
    rw [show ("\n            <div style=\"margin-bottom: 15px;\">\n                <div class=\"company-name\">"
        ++ e.companyName ++ "</div>\n                <div class=\"job-title\">" ++ e.jobTitle
        ++ "</div>\n                <div class=\"date-range\">" ++ e.startDate ++ " - "
        ++ NewPdfGen.experienceEndDate e
        ++ "</div>\n                <div class=\"responsibilities\">\n                    "
        ++ e.responsibilities ++ "\n                </div>\n            </div>\n            ")
      = NewPdfGen.experienceEntry e from by
        simp [NewPdfGen.experienceEntry, String.append_assoc]]
    simp only [NewPdfGen.generate_professional_template, NewPdfGen.experienceSection,
      if_neg hne, String.append_assoc]
    repeat
      first
        | exact strOccurs_append_right h1
        | apply strOccurs_append_left
  · intro x hx
    have hne : cv.extracurricular ≠ [] := by
      intro hnil
      rw [hnil] at hx
      exact absurd hx (List.not_mem_nil x)
    have h1 := strOccurs_strJoin_of_mem NewPdfGen.extracurricularEntry hx
    rw [show ("\n            <div style=\"margin-bottom: 15px;\">\n                <div class=\"company-name\">"
        ++ x.organization ++ "</div>\n                <div class=\"job-title\">" ++ x.role
        ++ "</div>\n                <div class=\"date-range\">" ++ x.startDate ++ " - "
        ++ NewPdfGen.extraEndDate x
        ++ "</div>\n                <div class=\"responsibilities\">\n                    "
        ++ x.description ++ "\n                </div>\n            </div>\n            ")
      = NewPdfGen.extracurricularEntry x from by
        simp [NewPdfGen.extracurricularEntry, String.append_assoc]]
    simp only [NewPdfGen.generate_professional_template, NewPdfGen.extracurricularSection,
      if_neg hne, String.append_assoc]
    repeat
      first
        | exact strOccurs_append_right h1
        | apply strOccurs_append_left
  · intro c hc
    have hne : cv.certificates ≠ [] := by
      intro hnil
      rw [hnil] at hc
      exact absurd hc (List.not_mem_nil c)
    have h1 := strOccurs_strJoin_of_mem NewPdfGen.certEntry hc
    rw [show ("\n            <div style=\"margin-bottom: 10px;\">\n                <div class=\"school-name\">"
        ++ c.name ++ "</div>\n                <div class=\"job-title\">" ++ c.institution
        ++ "</div>\n                <div class=\"date-range\">" ++ "Acquired:" ++ " "
        ++ c.dateAcquired ++ NewPdfGen.certExpiry c ++ "</div>\n                "
        ++ (if c.achievements = "" then "" else "<p>" ++ c.achievements ++ "</p>")
        ++ "\n            </div>\n            ")
      = NewPdfGen.certEntry c from by
        simp [NewPdfGen.certEntry, String.append_assoc]]
    simp only [NewPdfGen.generate_professional_template, NewPdfGen.certificatesSection,
      if_neg hne, String.append_assoc]
    repeat
      first
        | exact strOccurs_append_right h1
        | apply strOccurs_append_left
  · intro l hl
    have hne : cv.languages ≠ [] := by
      intro hnil
      rw [hnil] at hl
      exact absurd hl (List.not_mem_nil l)
    have h1 := strOccurs_strJoin_of_mem NewPdfGen.languageRow hl
    rw [show ("\n            <div class=\"language\">\n                <span class=\"language-name\">"
        ++ l.name ++ "</span> - \n                <span class=\"language-level\">"
        ++ pyCapitalize l.proficiency ++ "</span>\n            </div>\n            ")
      = NewPdfGen.languageRow l from by
        simp [NewPdfGen.languageRow, String.append_assoc]]
    simp only [NewPdfGen.generate_professional_template, NewPdfGen.languagesSection,
      if_neg hne, String.append_assoc]
    repeat
      first
        | exact strOccurs_append_right h1
        | apply strOccurs_append_left

/-- Witness for claim C1 at a concrete record populating every section:
the linkedin value, summary text, a skill containing a markup
character, and a language row with its capitalized proficiency, all
inserted unescaped into the generated documents. -/
theorem c1_verbatim_insertion_witness :
    (∃ pre rest, PdfGen.generate_professional_template verbatimRecord
      = pre ++ " | LinkedIn: " ++ verbatimRecord.personal.linkedin ++ rest)
    ∧ StrOccurs ("\n        <div class=\"section\">\n            <div class=\"section-title\">Professional Summary</div>\n            <p>"
        ++ verbatimRecord.summary.summary ++ "</p>\n        </div>\n        ")
      (PdfGen.generate_professional_template verbatimRecord)
    ∧ StrOccurs ("<div class=\"skills-item\">• " ++ "Py<thon" ++ "</div>")
      (PdfGen.generate_professional_template verbatimRecord)
    ∧ StrOccurs ("\n            <div class=\"language\">\n                <span class=\"language-name\">"
        ++ "French" ++ "</span> - \n                <span class=\"language-level\">"
        ++ pyCapitalize "fLUENT" ++ "</span>\n            </div>\n            ")
      (NewPdfGen.generate_professional_template verbatimRecord) := by
  obtain ⟨h1, h2, h3, h4, h5, h6, h7, h8, h9, h10, h11, h12, h13, h14,
    h15, h16, h17, h18, h19⟩ := c1_verbatim_insertion verbatimRecord
  exact ⟨h2 (by decide), h3 (by decide), h4 "Py<thon" (by decide),
    h19 ⟨"French", "fLUENT"⟩ (by decide)⟩

/-- Claim C2, counterexample: the weasy_pdf.py pipeline is not a
function of the record and template alone. Two invocations on the same
record whose clock readings format differently build different
template-rendering contexts, so the composed document is not guaranteed
byte-identical across runs. -/
theorem c2_determinism_counterexample :
    Weasy.weasy_context {} "April 01, 2025" ≠ Weasy.weasy_context {} "April 02, 2025" := by
  decide

/-- Claim C2, amended: the rendering context of weasy_pdf.generate_pdf
agrees between two invocations on the same record exactly when the two
formatted clock readings agree; the current date is part of the
composition input, so run-to-run byte-identity is not guaranteed. -/
theorem c2_weasy_context_clock :
    ∀ (d : CVData) (n₁ n₂ : String),
      Weasy.weasy_context d n₁ = Weasy.weasy_context d n₂ ↔ n₁ = n₂ := by
  intro d n₁ n₂
  constructor
  · intro h
    exact congrArg Weasy.WeasyContext.now h
  · intro h
    rw [h]

/-- Claim C3: the omission rule. Every section composer returns the
empty string when its underlying data is empty (empty summary text,
both competency sub-lists empty, empty entry lists, no additional
skills), in both generator files; the header region is always present
(the document always starts with the header block); and in particular
the empty record yields a document in which the text Professional
Summary does not occur at all. -/
theorem c3_section_omission :
    (∀ s : SummaryData, s.summary = "" → PdfGen.summarySection s = "")
    ∧ (∀ k : KeyCompetencies, k.technicalSkills = [] → k.softSkills = [] →
        PdfGen.competenciesSection k = "")
    ∧ PdfGen.experienceSection [] = ""
    ∧ PdfGen.educationSection [] = ""
    ∧ PdfGen.certificatesSection [] = ""
    ∧ PdfGen.languagesSection [] = ""
    ∧ (∀ a : Additional, a.skills = [] → PdfGen.additionalSection a = "")
    ∧ (∀ cv : CVData, ∃ rest,
        PdfGen.generate_professional_template cv = PdfGen.headerBlock cv.personal ++ rest)
    ∧ (∀ s : SummaryData, s.summary = "" → NewPdfGen.summarySection s = "")
    ∧ (∀ k : KeyCompetencies, k.technicalSkills = [] → k.softSkills = [] →
        NewPdfGen.competenciesSection k = "")
    ∧ NewPdfGen.experienceSection [] = ""
    ∧ NewPdfGen.educationSection [] = ""
    ∧ NewPdfGen.certificatesSection [] = ""
    ∧ NewPdfGen.extracurricularSection [] = ""
    ∧ NewPdfGen.languagesSection [] = ""
    ∧ (∀ a : Additional, a.skills = [] → NewPdfGen.additionalSection a = "")
    ∧ (∀ cv : CVData, ∃ rest,
        NewPdfGen.generate_professional_template cv = NewPdfGen.headerBlock cv.personal ++ rest)
    ∧ ¬ StrOccurs "Professional Summary" (PdfGen.generate_professional_template {})
    ∧ ¬ StrOccurs "Professional Summary" (NewPdfGen.generate_professional_template {}) := by
  refine ⟨fun s h => by simp [PdfGen.summarySection, h],
    fun k h1 h2 => by simp [PdfGen.competenciesSection, h1, h2],
    by simp [PdfGen.experienceSection],
    by simp [PdfGen.educationSection],
    by simp [PdfGen.certificatesSection],
    by simp [PdfGen.languagesSection],
    fun a h => by simp [PdfGen.additionalSection, h],
    fun cv => ⟨PdfGen.summarySection cv.summary
      ++ PdfGen.competenciesSection cv.keyCompetencies
      ++ PdfGen.experienceSection cv.experiences
      ++ PdfGen.educationSection cv.educations
      ++ PdfGen.certificatesSection cv.certificates
      ++ PdfGen.languagesSection cv.languages
      ++ PdfGen.additionalSection cv.additional
      ++ PdfGen.docTail, by
        simp [PdfGen.generate_professional_template, String.append_assoc]⟩,
    fun s h => by simp [NewPdfGen.summarySection, h],
    fun k h1 h2 => by simp [NewPdfGen.competenciesSection, h1, h2],
    by simp [NewPdfGen.experienceSection],
    by simp [NewPdfGen.educationSection],
    by simp [NewPdfGen.certificatesSection],
    by simp [NewPdfGen.extracurricularSection],
    by simp [NewPdfGen.languagesSection],
    fun a h => by simp [NewPdfGen.additionalSection, h],
    fun cv => ⟨NewPdfGen.summarySection cv.professional
      ++ NewPdfGen.competenciesSection cv.keyCompetencies
      ++ NewPdfGen.experienceSection cv.experience
      ++ NewPdfGen.educationSection cv.education
      ++ NewPdfGen.certificatesSection cv.certificates
      ++ NewPdfGen.extracurricularSection cv.extracurricular
      ++ NewPdfGen.languagesSection cv.languages
      ++ NewPdfGen.additionalSection cv.additional
      ++ NewPdfGen.docTail, by
        simp [NewPdfGen.generate_professional_template, String.append_assoc]⟩,
    ?_, ?_⟩
  · rw [emptyProf_eq]
    exact not_strOccurs_of_chunks emptyProfChunks (by decide) (by decide)
  · rw [emptyNewProf_eq]
    exact not_strOccurs_of_chunks emptyNewProfChunks (by decide) (by decide)

/-- Witness for claim C3 at concrete empty section data. -/
theorem c3_section_omission_witness :
    PdfGen.summarySection { summary := "" } = ""
    ∧ NewPdfGen.summarySection { summary := "" } = ""
    ∧ PdfGen.competenciesSection { technicalSkills := [], softSkills := [] } = ""
    ∧ PdfGen.additionalSection { skills := [] } = ""
    ∧ NewPdfGen.additionalSection { skills := [] } = "" := by
  obtain ⟨h1, h2, _, _, _, _, h7, _, h9, _, _, _, _, _, _, h16, _⟩ := c3_section_omission
  exact ⟨h1 _ rfl, h9 _ rfl, h2 _ rfl rfl, h7 _ rfl, h16 _ rfl⟩

/-- Claim C4: the four defining evaluations of the date normalizer of
weasy_pdf.py: an ISO date renders as abbreviated month and year, the
empty string stays empty, an unparseable string passes through, and
every value with is_current true renders as Present. -/
theorem c4_date_normalization :
    Weasy.format_date (Weasy.PyVal.str "2023-03-15") false = "Mar 2023"
    ∧ Weasy.format_date (Weasy.PyVal.str "") false = ""
    ∧ Weasy.format_date (Weasy.PyVal.str "not-a-date") false = "not-a-date"
    ∧ ∀ v : Weasy.PyVal, Weasy.format_date v true = "Present" :=
  ⟨by decide, by decide, by decide, fun _ => rfl⟩

/-- Claim C5, counterexample: for the Acme record the professional
document of pdf-generator.py does not contain the normalized date range
Jan 2020 - Present anywhere; it contains the raw range
2020-01-01 - Present instead, because the string templates never route
dates through the normalizer. -/
theorem c5_acme_counterexample :
    ¬ StrOccurs "Jan 2020 - Present" (PdfGen.generate_professional_template acmeRecord)
    ∧ StrOccurs "2020-01-01 - Present" (PdfGen.generate_professional_template acmeRecord) := by
  constructor
  · rw [acmeProf_eq]
    exact not_strOccurs_of_chunks acmeChunks (by decide) (by decide)
  · rw [acmeProf_eq, show ("2020-01-01 - Present" : String)
      = "2020-01-01" ++ " - " ++ "Present" from by decide]
    simp only [acmeChunks, strJoin]
    iterate 17 apply strOccurs_append_left
    exact strOccurs_three _ _ _ _

/-- Claim C5, amended: for the Acme record the document is exactly the
header block, one Experience section and the closing tags (one section
block plus the always-present header), the rendered date range text is
2020-01-01 - Present, and the normalizer would have produced Jan 2020
and Present for these date values had it been consulted. -/
theorem c5_acme_scenario :
    PdfGen.generate_professional_template acmeRecord
      = PdfGen.headerBlock acmeRecord.personal
        ++ PdfGen.experienceSection acmeRecord.experiences
        ++ PdfGen.docTail
    ∧ StrOccurs "2020-01-01 - Present" (PdfGen.generate_professional_template acmeRecord)
    ∧ Weasy.format_date (Weasy.PyVal.str "2020-01-01") false = "Jan 2020"
    ∧ Weasy.format_date (Weasy.PyVal.str "2020-01-01") true = "Present" := by
  refine ⟨?_, ?_, by decide, rfl⟩
  · simp [PdfGen.generate_professional_template, acmeRecord, PdfGen.summarySection,
      PdfGen.competenciesSection, PdfGen.educationSection, PdfGen.certificatesSection,
      PdfGen.languagesSection, PdfGen.additionalSection,
      str_empty_append, str_append_empty, String.append_assoc]
  · rw [acmeProf_eq, show ("2020-01-01 - Present" : String)
      = "2020-01-01" ++ " - " ++ "Present" from by decide]
    simp only [acmeChunks, strJoin]
    iterate 17 apply strOccurs_append_left
    exact strOccurs_three _ _ _ _

/-- Claim C6: for every current experience entry the rendered date
range is the raw start date followed by the literal Present, and the
rendered entry does not depend on the endDate value at all; likewise
for experience and extracurricular entries of new-pdf-generator.py. -/
theorem c6_current_role_present :
    ∀ (e : Experience) (x : Extracurricular), e.isCurrent = true → x.isCurrent = true →
      PdfGen.experienceDateRange e = e.startDate ++ " - Present"
      ∧ (∀ d : String,
          PdfGen.experienceEntry { e with endDate := d }
            = PdfGen.experienceEntry { e with endDate := "" })
      ∧ NewPdfGen.experienceEndDate e = "Present"
      ∧ (∀ d : String,
          NewPdfGen.experienceEntry { e with endDate := d }
            = NewPdfGen.experienceEntry { e with endDate := "" })
      ∧ NewPdfGen.extraEndDate x = "Present"
      ∧ (∀ d : String,
          NewPdfGen.extracurricularEntry { x with endDate := d }
            = NewPdfGen.extracurricularEntry { x with endDate := "" }) := by
  intro e x he hx
  have hdash : (" - " : String) ++ "Present" = " - Present" := by decide
  refine ⟨?_, ?_, ?_, ?_, ?_, ?_⟩
  · simp [PdfGen.experienceDateRange, PdfGen.experienceEndDate, he,
      String.append_assoc, hdash]
  · intro d
    simp [PdfGen.experienceEntry, PdfGen.experienceDateRange, PdfGen.experienceEndDate, he]
  · simp [NewPdfGen.experienceEndDate, he]
  · intro d
    simp [NewPdfGen.experienceEntry, NewPdfGen.experienceEndDate, he]
  · simp [NewPdfGen.extraEndDate, hx]
  · intro d
    simp [NewPdfGen.extracurricularEntry, NewPdfGen.extraEndDate, hx]

/-- Witness for claim C6 at a concrete current entry with a non-empty
endDate. -/
theorem c6_current_role_present_witness :
    PdfGen.experienceDateRange
        { startDate := "2020-01-01", endDate := "2024-12-31", isCurrent := true }
      = "2020-01-01 - Present"
    ∧ PdfGen.experienceEntry
        { startDate := "2020-01-01", endDate := "2024-12-31", isCurrent := true }
      = PdfGen.experienceEntry
        { startDate := "2020-01-01", endDate := "", isCurrent := true }
    ∧ NewPdfGen.extraEndDate { endDate := "2024-12-31", isCurrent := true } = "Present" := by
  have h := c6_current_role_present
    { startDate := "2020-01-01", endDate := "2024-12-31", isCurrent := true }
    { endDate := "2024-12-31", isCurrent := true } rfl rfl
  exact ⟨h.1.trans (by decide), h.2.1 "2024-12-31", h.2.2.2.2.1⟩

/-- Claim C7: every unrecognized template style identifier falls back
to the professional template, in both generator files: the dispatched
document equals the one generated for the professional style. -/
theorem c7_template_fallback :
    ∀ (r : CVData) (s : String),
      s ≠ "professional" → s ≠ "modern" → s ≠ "minimal" →
      PdfGen.generate_cv_pdf_html r s = PdfGen.generate_cv_pdf_html r "professional"
      ∧ NewPdfGen.generate_cv_pdf_html r s = NewPdfGen.generate_cv_pdf_html r "professional" := by
  intro r s h1 h2 h3
  constructor
  · simp [PdfGen.generate_cv_pdf_html, h1, h2, h3]
  · simp [NewPdfGen.generate_cv_pdf_html, h1, h2, h3]

/-- Witness for claim C7 at a concrete unrecognized style identifier. -/
theorem c7_template_fallback_witness :
    PdfGen.generate_cv_pdf_html {} "nonexistent-style"
      = PdfGen.generate_cv_pdf_html {} "professional"
    ∧ NewPdfGen.generate_cv_pdf_html {} "nonexistent-style"
      = NewPdfGen.generate_cv_pdf_html {} "professional" :=
  c7_template_fallback {} "nonexistent-style" (by decide) (by decide) (by decide)

/-- Claim C8, counterexample: in pdf-generator.py a certificate with an
expiration date renders the expiry as a parenthesized fragment, not as
the dash-separated suffix the claim states: the rendered block does not
contain the text consisting of a dash and Expires, while it does
contain the parenthesized form. -/
theorem c8_expiry_counterexample :
    ¬ StrOccurs " - Expires: 2025-01-01"
        (PdfGen.certEntry { name := "AWS", institution := "Amazon",
                            dateAcquired := "2020-01-01", expirationDate := "2025-01-01" })
    ∧ StrOccurs " (Expires: 2025-01-01)"
        (PdfGen.certEntry { name := "AWS", institution := "Amazon",
                            dateAcquired := "2020-01-01", expirationDate := "2025-01-01" }) :=
  ⟨not_strOccurs_of_contains (by decide), strOccurs_of_contains (by decide)⟩

/-- Claim C8, amended: every certificate block contains Acquired in
both generator files; when the expiration date is non-empty the block
of pdf-generator.py additionally contains the parenthesized Expires
fragment and the block of new-pdf-generator.py the dash-separated
Expires suffix; and a concrete certificate without an expiration date
contains no Expires text in either file. -/
theorem c8_cert_expiry :
    ∀ c : Certificate,
      StrOccurs "Acquired:" (PdfGen.certEntry c)
      ∧ StrOccurs "Acquired:" (NewPdfGen.certEntry c)
      ∧ (c.expirationDate ≠ "" →
          StrOccurs " (Expires: " (PdfGen.certEntry c)
          ∧ StrOccurs " - Expires: " (NewPdfGen.certEntry c))
      ∧ ¬ StrOccurs "Expires:"
          (PdfGen.certEntry { name := "AWS", institution := "Amazon",
                              dateAcquired := "2020-01-01" })
      ∧ ¬ StrOccurs "Expires:"
          (NewPdfGen.certEntry { name := "AWS", institution := "Amazon",
                                 dateAcquired := "2020-01-01" }) := by
  intro c
  refine ⟨?_, ?_, fun hd => ⟨?_, ?_⟩,
    not_strOccurs_of_contains (by decide), not_strOccurs_of_contains (by decide)⟩
  · simp only [PdfGen.certEntry, String.append_assoc]
    iterate 5 apply strOccurs_append_left
    exact strOccurs_head _ _
  · simp only [NewPdfGen.certEntry, String.append_assoc]
    iterate 5 apply strOccurs_append_left
    exact strOccurs_head _ _
  · simp only [PdfGen.certEntry, PdfGen.certExpiration, if_neg hd, String.append_assoc]
    iterate 8 apply strOccurs_append_left
    exact strOccurs_head _ _
  · simp only [NewPdfGen.certEntry, NewPdfGen.certExpiry, if_neg hd, String.append_assoc]
    iterate 8 apply strOccurs_append_left
    exact strOccurs_head _ _

/-- Witness for claim C8 at a concrete certificate with an expiration
date. -/
theorem c8_cert_expiry_witness :
    StrOccurs "Acquired:"
      (PdfGen.certEntry { name := "AWS", institution := "Amazon",
                          dateAcquired := "2020-01-01", expirationDate := "2025-01-01" })
    ∧ StrOccurs " (Expires: "
      (PdfGen.certEntry { name := "AWS", institution := "Amazon",
                          dateAcquired := "2020-01-01", expirationDate := "2025-01-01" })
    ∧ StrOccurs " - Expires: "
      (NewPdfGen.certEntry { name := "AWS", institution := "Amazon",
                             dateAcquired := "2020-01-01", expirationDate := "2025-01-01" }) := by
  have h := c8_cert_expiry
    { name := "AWS", institution := "Amazon",
      dateAcquired := "2020-01-01", expirationDate := "2025-01-01" }
  exact ⟨h.1, (h.2.2.1 (by decide)).1, (h.2.2.1 (by decide)).2⟩

/-- Claim C9: the code raises on degraded-but-well-typed input. A
language entry whose proficiency key is present with value null reaches
the capitalize call on None, so the Languages composer of
pdf-generator.py raises AttributeError instead of degrading; the same
entry with a string proficiency renders normally. The date normalizer
itself is total (format_date is a total function by construction). -/
theorem c9_null_proficiency_error :
    PdfGen.languagesSectionPy
        [{ name := some (Weasy.PyVal.str "French"), proficiency := some Weasy.PyVal.none }]
      = Except.error "AttributeError: NoneType object has no attribute capitalize"
    ∧ PdfGen.languagesSectionPy
        [{ name := some (Weasy.PyVal.str "French"),
           proficiency := some (Weasy.PyVal.str "fluent") }]
      = Except.ok ("\n        <div class=\"section\">\n            <div class=\"section-title\">Languages</div>\n        "
          ++ "\n            <div class=\"language\">\n                <span class=\"language-name\">French</span> - \n                <span class=\"language-level\">Fluent</span>\n            </div>\n            "
          ++ "</div>") :=
  ⟨rfl, rfl⟩

/-- Claim C10: in new-pdf-generator.py the modern and minimal template
functions return exactly the professional document for every record. -/
theorem c10_modern_minimal_professional :
    ∀ cv : CVData,
      NewPdfGen.generate_modern_template cv = NewPdfGen.generate_professional_template cv
      ∧ NewPdfGen.generate_minimal_template cv = NewPdfGen.generate_professional_template cv :=
  fun _ => ⟨rfl, rfl⟩
